import Mathlib

/-!
Verification of the span-sanitizer in `aztec_macros/src/utils/parse_utils.rs`.

The sanitizer (`parse_program` and the family of `empty_*` functions) walks a
parsed Noir module and resets every location ("span") attribute to the default
sentinel while leaving all other content untouched.

The AST node types themselves (`noirc_frontend::ast`) are not part of the given
source; they are modelled from the spec's data model (§3) together with the
constructor shapes that `parse_utils.rs` pattern-matches on.  Fields matched by
`_` placeholders whose type the spec does not describe as positional are
modelled with span-free payloads (`Bool`/`Nat`); fields the spec identifies as
auxiliary positional data are modelled as `Span`.  The `empty_*` functions are
translated directly from `parse_utils.rs`: Rust's in-place mutation through
`&mut` becomes a pure tree-to-tree function.
-/

set_option maxHeartbeats 2000000

namespace Noir

/-- Modelled from the spec: the location attribute ("span") of a node, a byte
range in source text; the empty sentinel is Rust's `Span::default()`. -/
structure Span where
  start : Nat
  stop : Nat
deriving DecidableEq, Repr

/-- The empty sentinel, Rust's `Span::default()` / `Default::default()`. -/
def default_span : Span := ⟨0, 0⟩

/-- Modelled from the spec: an identifier is a leaf entity carrying its text and
its own location attribute (Rust `Ident(Spanned<String>)`). -/
structure Ident where
  contents : String
  span : Span
deriving DecidableEq, Repr

/-- Modelled from the spec: a path segment clears its own location and holds an
identifier (`PathSegment { ident, span }`). -/
structure PathSegment where
  ident : Ident
  span : Span
deriving DecidableEq, Repr

/-- Modelled from the spec: a dotted path, an ordered list of segments plus its
own location attribute. -/
structure Path where
  segments : List PathSegment
  span : Span
deriving DecidableEq, Repr

/-- `fn empty_ident`: `ident.0.set_span(Default::default())`. -/
def empty_ident (ident : Ident) : Ident :=
  { ident with span := default_span }

/-- `fn empty_path_segment`: clears the segment span and empties its ident. -/
def empty_path_segment (segment : PathSegment) : PathSegment :=
  { segment with span := default_span, ident := empty_ident segment.ident }

/-- `fn empty_path`: clears the path span and empties every segment. -/
def empty_path (path : Path) : Path :=
  { path with span := default_span, segments := path.segments.map empty_path_segment }

/-- Modelled from the spec (§3): binding patterns.  Only the `Identifier` form's
ident carries the location attribute; the `Mutable`, `Tuple` and `Struct` forms
carry auxiliary positional data (the trailing `Span`), matched by `_` in
`empty_pattern`.  `Mutable`'s trailing `Bool` is the span-free payload matched
by the final `_` in the source. -/
inductive Pattern where
  | Identifier (ident : Ident)
  | Mutable (pattern : Pattern) (span : Span) (is_synthesized : Bool)
  | Tuple (patterns : List Pattern) (span : Span)
  | Struct (path : Path) (fields : List (Ident × Pattern)) (span : Span)

mutual

/-- `fn empty_pattern`: dispatch on the pattern form; the auxiliary spans of
`Mutable`/`Tuple`/`Struct` are matched by `_` in the source and pass through. -/
def empty_pattern : Pattern → Pattern
  | .Identifier ident => .Identifier (empty_ident ident)
  | .Mutable pattern span is_synthesized =>
      .Mutable (empty_pattern pattern) span is_synthesized
  | .Tuple patterns span => .Tuple (empty_patterns patterns) span
  | .Struct path fields span =>
      .Struct (empty_path path) (empty_pattern_fields fields) span

/-- The `for pattern in patterns.iter_mut()` loop of `Pattern::Tuple`. -/
def empty_patterns : List Pattern → List Pattern
  | [] => []
  | pattern :: rest => empty_pattern pattern :: empty_patterns rest

/-- The `for (name, pattern) in patterns.iter_mut()` loop of `Pattern::Struct`. -/
def empty_pattern_fields : List (Ident × Pattern) → List (Ident × Pattern)
  | [] => []
  | (name, pattern) :: rest =>
      (empty_ident name, empty_pattern pattern) :: empty_pattern_fields rest

end

/-- Modelled from the spec (§4.5): the small recursive union of type-level
expressions {variable reference to a Path, binary operation over two nested
type-expressions, compile-time numeric constant}.  The operator of
`BinaryOperation` and the payloads matched by `_` in the source are modelled
span-free, as the spec describes the constant and operator as terminal. -/
inductive UnresolvedTypeExpression where
  | Variable (path : Path)
  | BinaryOperation (lhs : UnresolvedTypeExpression) (op : Nat)
      (rhs : UnresolvedTypeExpression) (extra : Nat)
  | Constant (value : Nat) (extra : Nat)
deriving DecidableEq, Repr

/-- `fn empty_unresolved_type_expression`: `Variable` empties its path,
`BinaryOperation` recurses into both operands, `Constant` is terminal. -/
def empty_unresolved_type_expression :
    UnresolvedTypeExpression → UnresolvedTypeExpression
  | .Variable path => .Variable (empty_path path)
  | .BinaryOperation lhs op rhs extra =>
      .BinaryOperation (empty_unresolved_type_expression lhs) op
        (empty_unresolved_type_expression rhs) extra
  | .Constant value extra => .Constant value extra

mutual

/-- Modelled from the spec (§3): a type node carries its own location attribute
plus its data. -/
inductive UnresolvedType where
  | mk (typ : UnresolvedTypeData) (span : Span)

/-- Modelled from the spec (§3, §4.5): the tagged union of type forms.  The
primitive/terminal forms carry span-free payloads; `Named`'s trailing `Bool` is
the span-free payload matched by `_` in the source, and `Function`'s trailing
`Bool` stands for the component matched by `_env` (the spec's Function form
has only argument and return Types). -/
inductive UnresolvedTypeData where
  | Array (size : UnresolvedTypeExpression) (element : UnresolvedType)
  | Slice (element : UnresolvedType)
  | Expression (expr : UnresolvedTypeExpression)
  | FormatString (size : UnresolvedTypeExpression) (element : UnresolvedType)
  | Parenthesized (inner : UnresolvedType)
  | Named (path : Path) (generics : List UnresolvedType) (extra : Bool)
  | TraitAsType (path : Path) (generics : List UnresolvedType)
  | MutableReference (inner : UnresolvedType)
  | Tuple (elements : List UnresolvedType)
  | Function (args : List UnresolvedType) (ret : UnresolvedType) (extra : Bool)
  | FieldElement
  | Integer (signed : Bool) (bits : Nat)
  | Bool
  | String (size : Nat)
  | Unit
  | Quoted (tag : Nat)
  | Resolved (id : Nat)
  | Unspecified
  | Error

end

mutual

/-- `fn empty_unresolved_type`: clears the node's span, then dispatches on the
type data; primitive/terminal forms are no-ops. -/
def empty_unresolved_type : UnresolvedType → UnresolvedType
  | .mk typ _ => .mk (empty_unresolved_type_data typ) default_span

/-- The `match &mut unresolved_type.typ` dispatch of `empty_unresolved_type`. -/
def empty_unresolved_type_data : UnresolvedTypeData → UnresolvedTypeData
  | .Array size element =>
      .Array (empty_unresolved_type_expression size) (empty_unresolved_type element)
  | .Slice element => .Slice (empty_unresolved_type element)
  | .Expression expr => .Expression (empty_unresolved_type_expression expr)
  | .FormatString size element =>
      .FormatString (empty_unresolved_type_expression size)
        (empty_unresolved_type element)
  | .Parenthesized inner => .Parenthesized (empty_unresolved_type inner)
  | .Named path generics extra =>
      .Named (empty_path path) (empty_unresolved_types generics) extra
  | .TraitAsType path generics =>
      .TraitAsType (empty_path path) (empty_unresolved_types generics)
  | .MutableReference inner => .MutableReference (empty_unresolved_type inner)
  | .Tuple elements => .Tuple (empty_unresolved_types elements)
  | .Function args ret extra =>
      .Function (empty_unresolved_types args) (empty_unresolved_type ret) extra
  | .FieldElement => .FieldElement
  | .Integer signed bits => .Integer signed bits
  | .Bool => .Bool
  | .String size => .String size
  | .Unit => .Unit
  | .Quoted tag => .Quoted tag
  | .Resolved id => .Resolved id
  | .Unspecified => .Unspecified
  | .Error => .Error

/-- `fn empty_unresolved_types`: empties every type in a list. -/
def empty_unresolved_types : List UnresolvedType → List UnresolvedType
  | [] => []
  | typ :: rest => empty_unresolved_type typ :: empty_unresolved_types rest

end

/-- Modelled from the spec (§4.5): a generic parameter is either a plain
variable (an identifier) or a numeric generic (identifier plus declared type). -/
inductive UnresolvedGeneric where
  | Variable (ident : Ident)
  | Numeric (ident : Ident) (typ : UnresolvedType)

/-- `fn empty_unresolved_generic`. -/
def empty_unresolved_generic : UnresolvedGeneric → UnresolvedGeneric
  | .Variable ident => .Variable (empty_ident ident)
  | .Numeric ident typ => .Numeric (empty_ident ident) (empty_unresolved_type typ)

/-- `fn empty_unresolved_generics`: empties every generic in the list
(`UnresolvedGenerics` is `Vec<UnresolvedGeneric>`). -/
def empty_unresolved_generics (generics : List UnresolvedGeneric) :
    List UnresolvedGeneric :=
  generics.map empty_unresolved_generic

/-- Modelled from the spec (§4.5): a trait-bound constraint normalizes its
constrained type. -/
structure UnresolvedTraitConstraint where
  typ : UnresolvedType

/-- `fn empty_unresolved_trait_constraint`: empties the constrained type. -/
def empty_unresolved_trait_constraint (c : UnresolvedTraitConstraint) :
    UnresolvedTraitConstraint :=
  { typ := empty_unresolved_type c.typ }

/-- `fn empty_unresolved_trait_constraints`: empties every constraint. -/
def empty_unresolved_trait_constraints (cs : List UnresolvedTraitConstraint) :
    List UnresolvedTraitConstraint :=
  cs.map empty_unresolved_trait_constraint

/-- Modelled from the spec: a function return type is either an explicit type
annotation or the default (whose payload, matched by `_`, is span-free). -/
inductive FunctionReturnType where
  | Ty (typ : UnresolvedType)
  | Default (extra : Nat)

/-- `fn empty_function_return_type`: empties an explicit return type; the
default form is a no-op. -/
def empty_function_return_type : FunctionReturnType → FunctionReturnType
  | .Ty typ => .Ty (empty_unresolved_type typ)
  | .Default extra => .Default extra

mutual

/-- Modelled from the spec (§3): an expression node carries its own location
attribute plus its tagged-union data. -/
inductive Expression where
  | mk (kind : ExpressionKind) (span : Span)

/-- Modelled from the spec (§3, §4.4): the tagged union of expression variants.
`Comptime`'s trailing `Span` is the auxiliary span matched by `_span` in the
source; `Quote` and `Resolved` carry opaque span-free payloads. -/
inductive ExpressionKind where
  | Literal (literal : Literal)
  | Block (block_expression : BlockExpression)
  | Prefix (prefix_expression : PrefixExpression)
  | Index (index_expression : IndexExpression)
  | Call (call_expression : CallExpression)
  | MethodCall (method_call_expression : MethodCallExpression)
  | Constructor (constructor_expression : ConstructorExpression)
  | MemberAccess (member_access_expression : MemberAccessExpression)
  | Cast (cast_expression : CastExpression)
  | Infix (infix_expression : InfixExpression)
  | If (if_expression : IfExpression)
  | Variable (path : Path)
  | Tuple (expressions : List Expression)
  | Lambda (lambda : Lambda)
  | Parenthesized (expression : Expression)
  | Unquote (expression : Expression)
  | Comptime (block_expression : BlockExpression) (span : Span)
  | Quote (tokens : Nat)
  | Resolved (id : Nat)
  | Error

/-- Modelled from the spec (§4.4): literals; scalar forms carry span-free
values, `Array`/`Slice` carry an array literal. -/
inductive Literal where
  | Array (array_literal : ArrayLiteral)
  | Slice (array_literal : ArrayLiteral)
  | Bool (value : Bool)
  | Integer (value : Nat) (negative : Bool)
  | Str (value : String)
  | RawStr (value : String) (hashes : Nat)
  | FmtStr (value : String)
  | Unit

/-- Modelled from the spec (§4.4): an array literal is either a list of element
expressions or a repeated element together with a length expression. -/
inductive ArrayLiteral where
  | Standard (expressions : List Expression)
  | Repeated (repeated_element : Expression) (length : Expression)

/-- Modelled from the spec (§3): a block is an ordered list of statements. -/
inductive BlockExpression where
  | mk (statements : List Statement)

/-- Modelled from the spec (§3): a statement node carries its own location
attribute plus its tagged-union data. -/
inductive Statement where
  | mk (kind : StatementKind) (span : Span)

/-- Modelled from the spec (§3): the tagged union of statement variants;
`Break`/`Continue`/`Error` carry no payload. -/
inductive StatementKind where
  | Let (let_statement : LetStatement)
  | Constrain (constrain_statement : ConstrainStatement)
  | Expression (expression : Expression)
  | Assign (assign_statement : AssignStatement)
  | For (for_loop_statement : ForLoopStatement)
  | Comptime (statement : Statement)
  | Semi (expression : Expression)
  | Break
  | Continue
  | Error

/-- Modelled from the spec (§4.3): a let binding has a pattern, a type
annotation and an initializer expression (Rust field `r#type` is `typ`). -/
inductive LetStatement where
  | mk (pattern : Pattern) (typ : UnresolvedType) (expression : Expression)

/-- Modelled from the spec (§4.3): a constrain statement has the asserted
expression (`.0`) and an optional message expression (`.1`). -/
inductive ConstrainStatement where
  | mk (expression : Expression) (message : Option Expression)

/-- Modelled from the spec (§4.3): an assignment has an lvalue target and a
right-hand expression. -/
inductive AssignStatement where
  | mk (lvalue : LValue) (expression : Expression)

/-- Modelled from the spec (§4.3): assignment targets; the `MemberAccess`,
`Index` and `Dereference` forms carry auxiliary spans matched by `span: _`
or `_` in the source. -/
inductive LValue where
  | Ident (ident : Ident)
  | MemberAccess (object : LValue) (field_name : Ident) (span : Span)
  | Index (array : LValue) (index : Expression) (span : Span)
  | Dereference (lvalue : LValue) (span : Span)

/-- Modelled from the spec (§4.3): a for loop has a loop-variable identifier,
an iteration range, a body expression and its own location attribute. -/
inductive ForLoopStatement where
  | mk (identifier : Ident) (range : ForRange) (block : Expression) (span : Span)

/-- Modelled from the spec (§4.3): an iteration range is either a from/to
expression pair or a single array expression. -/
inductive ForRange where
  | Range (from_expression : Expression) (to_expression : Expression)
  | Array (expression : Expression)

/-- Modelled from the spec (§4.4): a prefix operation; the operator kind is
span-free and untouched. -/
inductive PrefixExpression where
  | mk (op : Nat) (rhs : Expression)

/-- Modelled from the spec (§4.4): indexing has a collection and an index. -/
inductive IndexExpression where
  | mk (collection : Expression) (index : Expression)

/-- Modelled from the spec (§4.4): a call has a callee and arguments. -/
inductive CallExpression where
  | mk (func : Expression) (arguments : List Expression)

/-- Modelled from the spec (§4.4): a method call has a receiver, a method
identifier, optional explicit generic type arguments, and arguments. -/
inductive MethodCallExpression where
  | mk (object : Expression) (method_name : Ident)
      (generics : Option (List UnresolvedType)) (arguments : List Expression)

/-- Modelled from the spec (§4.4): a constructor has a type-name path and named
field initializers. -/
inductive ConstructorExpression where
  | mk (type_name : Path) (fields : List (Ident × Expression))

/-- Modelled from the spec (§4.4): member access has a base expression and a
field identifier. -/
inductive MemberAccessExpression where
  | mk (lhs : Expression) (rhs : Ident)

/-- Modelled from the spec (§4.4): a cast has an operand and a target type
(Rust field `r#type` is `typ`). -/
inductive CastExpression where
  | mk (lhs : Expression) (typ : UnresolvedType)

/-- Modelled from the spec (§4.4): an infix operation; the operator kind is
span-free and untouched. -/
inductive InfixExpression where
  | mk (lhs : Expression) (op : Nat) (rhs : Expression)

/-- Modelled from the spec (§4.4): a conditional has a condition, a consequence
and an optional alternative. -/
inductive IfExpression where
  | mk (condition : Expression) (consequence : Expression)
      (alternative : Option Expression)

/-- Modelled from the spec (§4.4): a lambda has parameters (pattern/type
pairs), a return type and a body. -/
inductive Lambda where
  | mk (parameters : List (Pattern × UnresolvedType))
      (return_type : UnresolvedType) (body : Expression)

end

mutual

/-- `fn empty_expression`: clears the expression's span, then dispatches on the
kind; `Quote`/`Resolved`/`Error` are terminal and not recursed into. -/
def empty_expression : Expression → Expression
  | .mk kind _ => .mk (empty_expression_kind kind) default_span

/-- The `match &mut expression.kind` dispatch of `empty_expression`. -/
def empty_expression_kind : ExpressionKind → ExpressionKind
  | .Literal literal => .Literal (empty_literal literal)
  | .Block block_expression => .Block (empty_block_expression block_expression)
  | .Prefix prefix_expression => .Prefix (empty_prefix_expression prefix_expression)
  | .Index index_expression => .Index (empty_index_expression index_expression)
  | .Call call_expression => .Call (empty_call_expression call_expression)
  | .MethodCall method_call_expression =>
      .MethodCall (empty_method_call_expression method_call_expression)
  | .Constructor constructor_expression =>
      .Constructor (empty_constructor_expression constructor_expression)
  | .MemberAccess member_access_expression =>
      .MemberAccess (empty_member_access_expression member_access_expression)
  | .Cast cast_expression => .Cast (empty_cast_expression cast_expression)
  | .Infix infix_expression => .Infix (empty_infix_expression infix_expression)
  | .If if_expression => .If (empty_if_expression if_expression)
  | .Variable path => .Variable (empty_path path)
  | .Tuple expressions => .Tuple (empty_expressions expressions)
  | .Lambda lambda => .Lambda (empty_lambda lambda)
  | .Parenthesized expression => .Parenthesized (empty_expression expression)
  | .Unquote expression => .Unquote (empty_expression expression)
  | .Comptime block_expression span =>
      .Comptime (empty_block_expression block_expression) span
  | .Quote tokens => .Quote tokens
  | .Resolved id => .Resolved id
  | .Error => .Error

/-- `fn empty_expressions`: empties every expression in a list. -/
def empty_expressions : List Expression → List Expression
  | [] => []
  | expression :: rest => empty_expression expression :: empty_expressions rest

/-- The `if let Some(expression)` branches of the source, for optional
sub-expressions. -/
def empty_option_expression : Option Expression → Option Expression
  | some expression => some (empty_expression expression)
  | none => none

/-- `fn empty_literal`: `Array`/`Slice` recurse into the array literal; scalar
literal forms are no-ops. -/
def empty_literal : Literal → Literal
  | .Array array_literal => .Array (empty_array_literal array_literal)
  | .Slice array_literal => .Slice (empty_array_literal array_literal)
  | .Bool value => .Bool value
  | .Integer value negative => .Integer value negative
  | .Str value => .Str value
  | .RawStr value hashes => .RawStr value hashes
  | .FmtStr value => .FmtStr value
  | .Unit => .Unit

/-- `fn empty_array_literal`: empties every element of a standard literal, or
the repeated element and length of a repeated literal. -/
def empty_array_literal : ArrayLiteral → ArrayLiteral
  | .Standard expressions => .Standard (empty_expressions expressions)
  | .Repeated repeated_element length =>
      .Repeated (empty_expression repeated_element) (empty_expression length)

/-- `fn empty_block_expression`: empties every contained statement. -/
def empty_block_expression : BlockExpression → BlockExpression
  | .mk statements => .mk (empty_statements statements)

/-- The `for statement in block_expression.statements.iter_mut()` loop of
`empty_block_expression`. -/
def empty_statements : List Statement → List Statement
  | [] => []
  | statement :: rest => empty_statement statement :: empty_statements rest

/-- `fn empty_statement`: clears the statement's span, then dispatches on the
kind; `Break`/`Continue`/`Error` are no-ops. -/
def empty_statement : Statement → Statement
  | .mk kind _ => .mk (empty_statement_kind kind) default_span

/-- The `match &mut statement.kind` dispatch of `empty_statement`. -/
def empty_statement_kind : StatementKind → StatementKind
  | .Let let_statement => .Let (empty_let_statement let_statement)
  | .Constrain constrain_statement =>
      .Constrain (empty_constrain_statement constrain_statement)
  | .Expression expression => .Expression (empty_expression expression)
  | .Assign assign_statement => .Assign (empty_assign_statement assign_statement)
  | .For for_loop_statement => .For (empty_for_loop_statement for_loop_statement)
  | .Comptime statement => .Comptime (empty_statement statement)
  | .Semi expression => .Semi (empty_expression expression)
  | .Break => .Break
  | .Continue => .Continue
  | .Error => .Error

/-- `fn empty_let_statement`: empties the pattern, the type annotation and the
initializer expression. -/
def empty_let_statement : LetStatement → LetStatement
  | .mk pattern typ expression =>
      .mk (empty_pattern pattern) (empty_unresolved_type typ)
        (empty_expression expression)

/-- `fn empty_constrain_statement`: empties the asserted expression and, if
present, the message expression. -/
def empty_constrain_statement : ConstrainStatement → ConstrainStatement
  | .mk expression message =>
      .mk (empty_expression expression) (empty_option_expression message)

/-- `fn empty_assign_statement`: empties the lvalue and the expression. -/
def empty_assign_statement : AssignStatement → AssignStatement
  | .mk lvalue expression =>
      .mk (empty_lvalue lvalue) (empty_expression expression)

/-- `fn empty_lvalue`: dispatch on the lvalue form; the auxiliary spans of
`MemberAccess`/`Index`/`Dereference` are matched by `span: _` or `_` in the
source and pass through. -/
def empty_lvalue : LValue → LValue
  | .Ident ident => .Ident (empty_ident ident)
  | .MemberAccess object field_name span =>
      .MemberAccess (empty_lvalue object) (empty_ident field_name) span
  | .Index array index span =>
      .Index (empty_lvalue array) (empty_expression index) span
  | .Dereference lvalue span => .Dereference (empty_lvalue lvalue) span

/-- `fn empty_for_loop_statement`: clears the loop's span and empties the loop
identifier, the range and the body expression. -/
def empty_for_loop_statement : ForLoopStatement → ForLoopStatement
  | .mk identifier range block _ =>
      .mk (empty_ident identifier) (empty_for_range range)
        (empty_expression block) default_span

/-- `fn empty_for_range`: empties the from/to pair of a range form or the
single expression of the array form. -/
def empty_for_range : ForRange → ForRange
  | .Range from_expression to_expression =>
      .Range (empty_expression from_expression) (empty_expression to_expression)
  | .Array expression => .Array (empty_expression expression)

/-- `fn empty_prefix_expression`: empties the operand. -/
def empty_prefix_expression : PrefixExpression → PrefixExpression
  | .mk op rhs => .mk op (empty_expression rhs)

/-- `fn empty_index_expression`: empties the collection and the index. -/
def empty_index_expression : IndexExpression → IndexExpression
  | .mk collection index =>
      .mk (empty_expression collection) (empty_expression index)

/-- `fn empty_call_expression`: empties the callee and every argument. -/
def empty_call_expression : CallExpression → CallExpression
  | .mk func arguments =>
      .mk (empty_expression func) (empty_expressions arguments)

/-- `fn empty_method_call_expression`: empties the receiver, the method name,
the explicit generic arguments if present, and every argument. -/
def empty_method_call_expression : MethodCallExpression → MethodCallExpression
  | .mk object method_name generics arguments =>
      .mk (empty_expression object) (empty_ident method_name)
        (match generics with
          | some generics => some (empty_unresolved_types generics)
          | none => none)
        (empty_expressions arguments)

/-- `fn empty_constructor_expression`: empties the type-name path and every
named field's identifier and value expression. -/
def empty_constructor_expression : ConstructorExpression → ConstructorExpression
  | .mk type_name fields =>
      .mk (empty_path type_name) (empty_constructor_fields fields)

/-- The `for (name, expression) in constructor_expression.fields.iter_mut()`
loop of `empty_constructor_expression`. -/
def empty_constructor_fields :
    List (Ident × Expression) → List (Ident × Expression)
  | [] => []
  | (name, expression) :: rest =>
      (empty_ident name, empty_expression expression) ::
        empty_constructor_fields rest

/-- `fn empty_member_access_expression`: empties the base expression and the
field identifier. -/
def empty_member_access_expression :
    MemberAccessExpression → MemberAccessExpression
  | .mk lhs rhs => .mk (empty_expression lhs) (empty_ident rhs)

/-- `fn empty_cast_expression`: empties the operand and the target type. -/
def empty_cast_expression : CastExpression → CastExpression
  | .mk lhs typ => .mk (empty_expression lhs) (empty_unresolved_type typ)

/-- `fn empty_infix_expression`: empties both operands; the operator kind is
untouched. -/
def empty_infix_expression : InfixExpression → InfixExpression
  | .mk lhs op rhs => .mk (empty_expression lhs) op (empty_expression rhs)

/-- `fn empty_if_expression`: empties the condition, the consequence and, if
present, the alternative. -/
def empty_if_expression : IfExpression → IfExpression
  | .mk condition consequence alternative =>
      .mk (empty_expression condition) (empty_expression consequence)
        (empty_option_expression alternative)

/-- `fn empty_lambda`: empties every parameter's pattern and type, the return
type and the body. -/
def empty_lambda : Lambda → Lambda
  | .mk parameters return_type body =>
      .mk (empty_lambda_parameters parameters)
        (empty_unresolved_type return_type) (empty_expression body)

/-- The `for (name, typ) in lambda.parameters.iter_mut()` loop of
`empty_lambda`. -/
def empty_lambda_parameters :
    List (Pattern × UnresolvedType) → List (Pattern × UnresolvedType)
  | [] => []
  | (name, typ) :: rest =>
      (empty_pattern name, empty_unresolved_type typ) ::
        empty_lambda_parameters rest

end

/-- Modelled from the spec (§4.2): a function parameter has a pattern, a type
and its own span (the fields of `param` touched by `empty_noir_function`). -/
structure Param where
  pattern : Pattern
  typ : UnresolvedType
  span : Span

/-- Modelled from the spec (§3): a function definition has a name, generics,
parameters, a trait-bound clause, a return type, a block body and a signature
location attribute. -/
structure FunctionDef where
  name : Ident
  generics : List UnresolvedGeneric
  parameters : List Param
  where_clause : List UnresolvedTraitConstraint
  return_type : FunctionReturnType
  body : BlockExpression
  span : Span

/-- Modelled from the spec (§3): a function item wraps its definition (the Rust
field `def` is `defn` here, `def` being reserved in Lean). -/
structure NoirFunction where
  defn : FunctionDef

/-- `fn empty_noir_function`: clears the signature span and empties the name,
generics, each parameter's span/type/pattern, the where clause, the return
type and the body. -/
def empty_noir_function (noir_function : NoirFunction) : NoirFunction :=
  let d := noir_function.defn
  { defn :=
    { name := empty_ident d.name
      generics := empty_unresolved_generics d.generics
      parameters := d.parameters.map (fun param =>
        { pattern := empty_pattern param.pattern
          typ := empty_unresolved_type param.typ
          span := default_span })
      where_clause := empty_unresolved_trait_constraints d.where_clause
      return_type := empty_function_return_type d.return_type
      body := empty_block_expression d.body
      span := default_span } }

/-- Modelled from the spec (§4.2): a trait member is a function signature (with
optional body), an associated constant with an optional default value, or an
associated type. -/
inductive TraitItem where
  | Function (name : Ident) (generics : List UnresolvedGeneric)
      (parameters : List (Ident × UnresolvedType))
      (return_type : FunctionReturnType)
      (where_clause : List UnresolvedTraitConstraint)
      (body : Option BlockExpression)
  | Constant (name : Ident) (typ : UnresolvedType)
      (default_value : Option Expression)
  | «Type» (name : Ident)

/-- `fn empty_trait_item`: dispatch on the member form, emptying every nested
name, generic, parameter, return type, constraint, type and body. -/
def empty_trait_item : TraitItem → TraitItem
  | .Function name generics parameters return_type where_clause body =>
      .Function (empty_ident name) (empty_unresolved_generics generics)
        (parameters.map (fun (name, typ) =>
          (empty_ident name, empty_unresolved_type typ)))
        (empty_function_return_type return_type)
        (where_clause.map empty_unresolved_trait_constraint)
        (match body with
          | some body => some (empty_block_expression body)
          | none => none)
  | .Constant name typ default_value =>
      .Constant (empty_ident name) (empty_unresolved_type typ)
        (empty_option_expression default_value)
  | .«Type» name => .«Type» (empty_ident name)

/-- Modelled from the spec (§4.2): a trait-impl member is a function, an
associated constant with a default-value expression, or an associated type
(the Rust field `alias` is `alias_typ` here). -/
inductive TraitImplItem where
  | Function (noir_function : NoirFunction)
  | Constant (name : Ident) (typ : UnresolvedType) (default_value : Expression)
  | «Type» (name : Ident) (alias_typ : UnresolvedType)

/-- `fn empty_trait_impl_item`: dispatch on the member form; a constant empties
its name, type and default value. -/
def empty_trait_impl_item : TraitImplItem → TraitImplItem
  | .Function noir_function => .Function (empty_noir_function noir_function)
  | .Constant name typ default_value =>
      .Constant (empty_ident name) (empty_unresolved_type typ)
        (empty_expression default_value)
  | .«Type» name alias_typ =>
      .«Type» (empty_ident name) (empty_unresolved_type alias_typ)

/-- Modelled from the spec (§3): a trait declaration with its own location
attribute, name, generics, trait-bound clause and members. -/
structure NoirTrait where
  name : Ident
  generics : List UnresolvedGeneric
  where_clause : List UnresolvedTraitConstraint
  items : List TraitItem
  span : Span

/-- `fn empty_noir_trait`: clears the trait's span and empties the name,
generics, where clause and every member. -/
def empty_noir_trait (noir_trait : NoirTrait) : NoirTrait :=
  { name := empty_ident noir_trait.name
    generics := empty_unresolved_generics noir_trait.generics
    where_clause := empty_unresolved_trait_constraints noir_trait.where_clause
    items := noir_trait.items.map empty_trait_item
    span := default_span }

/-- Modelled from the spec (§4.2): a trait implementation with the implemented
trait's path, impl generics, object type, trait-bound clause and members. -/
structure NoirTraitImpl where
  trait_name : Path
  impl_generics : List UnresolvedGeneric
  object_type : UnresolvedType
  where_clause : List UnresolvedTraitConstraint
  items : List TraitImplItem

/-- `fn empty_noir_trait_impl`: empties the trait path, impl generics, object
type, where clause and every member. -/
def empty_noir_trait_impl (noir_trait_impl : NoirTraitImpl) : NoirTraitImpl :=
  { trait_name := empty_path noir_trait_impl.trait_name
    impl_generics := empty_unresolved_generics noir_trait_impl.impl_generics
    object_type := empty_unresolved_type noir_trait_impl.object_type
    where_clause :=
      empty_unresolved_trait_constraints noir_trait_impl.where_clause
    items := noir_trait_impl.items.map empty_trait_impl_item }

/-- Modelled from the spec (§4.2): an inherent impl with an object type, a
type span, generics, a trait-bound clause and methods (each method paired with
a span-free payload matched by `_` in the source). -/
structure TypeImpl where
  object_type : UnresolvedType
  type_span : Span
  generics : List UnresolvedGeneric
  where_clause : List UnresolvedTraitConstraint
  methods : List (NoirFunction × Bool)

/-- `fn empty_type_impl`: empties the object type, clears the type span,
empties the generics and where clause, and empties every method. -/
def empty_type_impl (type_impl : TypeImpl) : TypeImpl :=
  { object_type := empty_unresolved_type type_impl.object_type
    type_span := default_span
    generics := empty_unresolved_generics type_impl.generics
    where_clause := empty_unresolved_trait_constraints type_impl.where_clause
    methods := type_impl.methods.map (fun (noir_function, extra) =>
      (empty_noir_function noir_function, extra)) }

/-- Modelled from the spec (§4.2): a struct declaration with its own location
attribute, name, fields (identifier/type pairs) and generics. -/
structure NoirStruct where
  name : Ident
  fields : List (Ident × UnresolvedType)
  generics : List UnresolvedGeneric
  span : Span

/-- `fn empty_noir_struct`: clears the struct's span and empties the name,
every field's identifier and type, and the generics. -/
def empty_noir_struct (noir_struct : NoirStruct) : NoirStruct :=
  { name := empty_ident noir_struct.name
    fields := noir_struct.fields.map (fun (name, typ) =>
      (empty_ident name, empty_unresolved_type typ))
    generics := empty_unresolved_generics noir_struct.generics
    span := default_span }

/-- Modelled from the spec (§4.2): a type alias with its own location
attribute, name and aliased type. -/
structure NoirTypeAlias where
  name : Ident
  typ : UnresolvedType
  span : Span

/-- `fn empty_noir_type_alias`: clears the alias's span and empties the name
and the aliased type. -/
def empty_noir_type_alias (noir_type_alias : NoirTypeAlias) : NoirTypeAlias :=
  { name := empty_ident noir_type_alias.name
    typ := empty_unresolved_type noir_type_alias.typ
    span := default_span }

/-- Modelled from the spec (§4.2): a module declaration holds the declared
module's identifier. -/
structure ModuleDeclaration where
  ident : Ident

/-- `fn empty_module_declaration`: empties the identifier. -/
def empty_module_declaration (module_declaration : ModuleDeclaration) :
    ModuleDeclaration :=
  { ident := empty_ident module_declaration.ident }

mutual

/-- Modelled from the spec (§4.2): an import tree has a prefix path and either
a terminal name with an optional alias, or a list of nested import trees (the
Rust fields `prefix` and `alias` are `prefix_path` and `alias_name` here,
`prefix` being reserved in Lean). -/
inductive UseTree where
  | mk (prefix_path : Path) (kind : UseTreeKind)

/-- Modelled from the spec (§4.2): the two forms of an import tree. -/
inductive UseTreeKind where
  | Path (name : Ident) (alias_name : Option Ident)
  | List (use_trees : List UseTree)

end

mutual

/-- `fn empty_use_tree`: empties the prefix path, then dispatches on the
kind. -/
def empty_use_tree : UseTree → UseTree
  | .mk prefix_path kind =>
      .mk (empty_path prefix_path) (empty_use_tree_kind kind)

/-- The `match &mut use_tree.kind` dispatch of `empty_use_tree`. -/
def empty_use_tree_kind : UseTreeKind → UseTreeKind
  | .Path name alias_name =>
      .Path (empty_ident name)
        (match alias_name with
          | some alias_name => some (empty_ident alias_name)
          | none => none)
  | .List use_trees => .List (empty_use_trees use_trees)

/-- The `for use_tree in use_trees.iter_mut()` loop of `empty_use_tree`. -/
def empty_use_trees : List UseTree → List UseTree
  | [] => []
  | use_tree :: rest => empty_use_tree use_tree :: empty_use_trees rest

end

mutual

/-- Modelled from the spec (§3): a module is an ordered sequence of items. -/
inductive ParsedModule where
  | mk (items : List Item)

/-- Modelled from the spec (§3): a top-level item carries its own location
attribute plus its tagged-union data. -/
inductive Item where
  | mk (kind : ItemKind) (span : Span)

/-- Modelled from the spec (§3): the tagged union of top-level item forms. -/
inductive ItemKind where
  | Function (noir_function : NoirFunction)
  | Trait (noir_trait : NoirTrait)
  | TraitImpl (noir_trait_impl : NoirTraitImpl)
  | Impl (type_impl : TypeImpl)
  | Global (let_statement : LetStatement)
  | Submodules (parsed_submodule : ParsedSubModule)
  | ModuleDecl (module_declaration : ModuleDeclaration)
  | Import (use_tree : UseTree)
  | Struct (noir_struct : NoirStruct)
  | TypeAlias (noir_type_alias : NoirTypeAlias)

/-- Modelled from the spec (§3): a submodule has a name and nested module
contents. -/
inductive ParsedSubModule where
  | mk (name : Ident) (contents : ParsedModule)

end

mutual

/-- `fn empty_parsed_module`: empties every item of the module. -/
def empty_parsed_module : ParsedModule → ParsedModule
  | .mk items => .mk (empty_items items)

/-- The `for item in parsed_module.items.iter_mut()` loop of
`empty_parsed_module`. -/
def empty_items : List Item → List Item
  | [] => []
  | item :: rest => empty_item item :: empty_items rest

/-- `fn empty_item`: clears the item's span, then dispatches on the kind. -/
def empty_item : Item → Item
  | .mk kind _ => .mk (empty_item_kind kind) default_span

/-- The `match &mut item.kind` dispatch of `empty_item`. -/
def empty_item_kind : ItemKind → ItemKind
  | .Function noir_function => .Function (empty_noir_function noir_function)
  | .Trait noir_trait => .Trait (empty_noir_trait noir_trait)
  | .TraitImpl noir_trait_impl =>
      .TraitImpl (empty_noir_trait_impl noir_trait_impl)
  | .Impl type_impl => .Impl (empty_type_impl type_impl)
  | .Global let_statement => .Global (empty_let_statement let_statement)
  | .Submodules parsed_submodule =>
      .Submodules (empty_parsed_submodule parsed_submodule)
  | .ModuleDecl module_declaration =>
      .ModuleDecl (empty_module_declaration module_declaration)
  | .Import use_tree => .Import (empty_use_tree use_tree)
  | .Struct noir_struct => .Struct (empty_noir_struct noir_struct)
  | .TypeAlias noir_type_alias =>
      .TypeAlias (empty_noir_type_alias noir_type_alias)

/-- `fn empty_parsed_submodule`: empties the submodule's name and recurses into
its contents. -/
def empty_parsed_submodule : ParsedSubModule → ParsedSubModule
  | .mk name contents => .mk (empty_ident name) (empty_parsed_module contents)

end

/-- Modelled from the spec (§6): parse errors are opaque to this system and
passed through unchanged. -/
structure ParserError where
  code : Nat
deriving DecidableEq, Repr

/-- `fn parse_program`: the facade.  The external parser
`noirc_frontend::parse_program` is out of scope (§1) and specified only at its
boundary as producing a tree plus a list of parse errors; it is taken here as
the parameter `noirc_parse`.  If `empty_spans` is set, the parsed module is
passed through `empty_parsed_module`; the errors are returned as produced. -/
def parse_program (noirc_parse : String → ParsedModule × List ParserError)
    (source_program : String) (empty_spans : Bool) :
    ParsedModule × List ParserError :=
  let parsed := noirc_parse source_program
  let parsed_program := parsed.1
  let errors := parsed.2
  let parsed_program :=
    if empty_spans then empty_parsed_module parsed_program else parsed_program
  (parsed_program, errors)

/-!
Spec-side predicates: `spans_empty_*` decides whether every location attribute
in a tree equals the empty sentinel.  "Location attribute" is the span a node
carries as its own position (§3: items, statements, expressions, types,
identifiers, paths and path segments, function signatures and parameters,
struct/trait/alias declarations, for loops); the auxiliary positional data
stored inside the `Mutable`/`Tuple`/`Struct` pattern forms, the
`MemberAccess`/`Index`/`Dereference` lvalue forms and the `Comptime`
expression form is not a node's own location attribute (§3 lists it
separately, and §4.3/§4.6 do not clear it).
-/

/-- A span equals the empty sentinel. -/
def span_is_empty (span : Span) : Bool := span == default_span

/-- Every location attribute of an identifier is empty. -/
def spans_empty_ident (ident : Ident) : Bool := span_is_empty ident.span

/-- Every location attribute of a path segment is empty. -/
def spans_empty_path_segment (segment : PathSegment) : Bool :=
  span_is_empty segment.span && spans_empty_ident segment.ident

/-- Every location attribute of a path is empty. -/
def spans_empty_path (path : Path) : Bool :=
  span_is_empty path.span && path.segments.all spans_empty_path_segment

mutual

/-- Every location attribute of a pattern is empty. -/
def spans_empty_pattern : Pattern → Bool
  | .Identifier ident => spans_empty_ident ident
  | .Mutable pattern _ _ => spans_empty_pattern pattern
  | .Tuple patterns _ => spans_empty_patterns patterns
  | .Struct path fields _ =>
      spans_empty_path path && spans_empty_pattern_fields fields

/-- Every location attribute of a list of patterns is empty. -/
def spans_empty_patterns : List Pattern → Bool
  | [] => true
  | pattern :: rest => spans_empty_pattern pattern && spans_empty_patterns rest

/-- Every location attribute of a list of named patterns is empty. -/
def spans_empty_pattern_fields : List (Ident × Pattern) → Bool
  | [] => true
  | (name, pattern) :: rest =>
      spans_empty_ident name && spans_empty_pattern pattern &&
        spans_empty_pattern_fields rest

end

/-- Every location attribute of a type-level expression is empty. -/
def spans_empty_unresolved_type_expression : UnresolvedTypeExpression → Bool
  | .Variable path => spans_empty_path path
  | .BinaryOperation lhs _ rhs _ =>
      spans_empty_unresolved_type_expression lhs &&
        spans_empty_unresolved_type_expression rhs
  | .Constant _ _ => true

mutual

/-- Every location attribute of a type is empty. -/
def spans_empty_unresolved_type : UnresolvedType → Bool
  | .mk typ span =>
      span_is_empty span && spans_empty_unresolved_type_data typ

/-- Every location attribute of a type's data is empty. -/
def spans_empty_unresolved_type_data : UnresolvedTypeData → Bool
  | .Array size element =>
      spans_empty_unresolved_type_expression size &&
        spans_empty_unresolved_type element
  | .Slice element => spans_empty_unresolved_type element
  | .Expression expr => spans_empty_unresolved_type_expression expr
  | .FormatString size element =>
      spans_empty_unresolved_type_expression size &&
        spans_empty_unresolved_type element
  | .Parenthesized inner => spans_empty_unresolved_type inner
  | .Named path generics _ =>
      spans_empty_path path && spans_empty_unresolved_types generics
  | .TraitAsType path generics =>
      spans_empty_path path && spans_empty_unresolved_types generics
  | .MutableReference inner => spans_empty_unresolved_type inner
  | .Tuple elements => spans_empty_unresolved_types elements
  | .Function args ret _ =>
      spans_empty_unresolved_types args && spans_empty_unresolved_type ret
  | .FieldElement => true
  | .Integer _ _ => true
  | .Bool => true
  | .String _ => true
  | .Unit => true
  | .Quoted _ => true
  | .Resolved _ => true
  | .Unspecified => true
  | .Error => true

/-- Every location attribute of a list of types is empty. -/
def spans_empty_unresolved_types : List UnresolvedType → Bool
  | [] => true
  | typ :: rest =>
      spans_empty_unresolved_type typ && spans_empty_unresolved_types rest

end

/-- Every location attribute of a generic parameter is empty. -/
def spans_empty_unresolved_generic : UnresolvedGeneric → Bool
  | .Variable ident => spans_empty_ident ident
  | .Numeric ident typ =>
      spans_empty_ident ident && spans_empty_unresolved_type typ

/-- Every location attribute of a trait-bound constraint is empty. -/
def spans_empty_unresolved_trait_constraint
    (c : UnresolvedTraitConstraint) : Bool :=
  spans_empty_unresolved_type c.typ

/-- Every location attribute of a return type is empty. -/
def spans_empty_function_return_type : FunctionReturnType → Bool
  | .Ty typ => spans_empty_unresolved_type typ
  | .Default _ => true

mutual

/-- Every location attribute of an expression is empty. -/
def spans_empty_expression : Expression → Bool
  | .mk kind span => span_is_empty span && spans_empty_expression_kind kind

/-- Every location attribute of an expression's data is empty. -/
def spans_empty_expression_kind : ExpressionKind → Bool
  | .Literal literal => spans_empty_literal literal
  | .Block block_expression => spans_empty_block_expression block_expression
  | .Prefix prefix_expression =>
      spans_empty_prefix_expression prefix_expression
  | .Index index_expression => spans_empty_index_expression index_expression
  | .Call call_expression => spans_empty_call_expression call_expression
  | .MethodCall method_call_expression =>
      spans_empty_method_call_expression method_call_expression
  | .Constructor constructor_expression =>
      spans_empty_constructor_expression constructor_expression
  | .MemberAccess member_access_expression =>
      spans_empty_member_access_expression member_access_expression
  | .Cast cast_expression => spans_empty_cast_expression cast_expression
  | .Infix infix_expression => spans_empty_infix_expression infix_expression
  | .If if_expression => spans_empty_if_expression if_expression
  | .Variable path => spans_empty_path path
  | .Tuple expressions => spans_empty_expressions expressions
  | .Lambda lambda => spans_empty_lambda lambda
  | .Parenthesized expression => spans_empty_expression expression
  | .Unquote expression => spans_empty_expression expression
  | .Comptime block_expression _ =>
      spans_empty_block_expression block_expression
  | .Quote _ => true
  | .Resolved _ => true
  | .Error => true

/-- Every location attribute of a list of expressions is empty. -/
def spans_empty_expressions : List Expression → Bool
  | [] => true
  | expression :: rest =>
      spans_empty_expression expression && spans_empty_expressions rest

/-- Every location attribute of an optional expression is empty. -/
def spans_empty_option_expression : Option Expression → Bool
  | some expression => spans_empty_expression expression
  | none => true

/-- Every location attribute of a literal is empty. -/
def spans_empty_literal : Literal → Bool
  | .Array array_literal => spans_empty_array_literal array_literal
  | .Slice array_literal => spans_empty_array_literal array_literal
  | .Bool _ => true
  | .Integer _ _ => true
  | .Str _ => true
  | .RawStr _ _ => true
  | .FmtStr _ => true
  | .Unit => true

/-- Every location attribute of an array literal is empty. -/
def spans_empty_array_literal : ArrayLiteral → Bool
  | .Standard expressions => spans_empty_expressions expressions
  | .Repeated repeated_element length =>
      spans_empty_expression repeated_element && spans_empty_expression length

/-- Every location attribute of a block is empty. -/
def spans_empty_block_expression : BlockExpression → Bool
  | .mk statements => spans_empty_statements statements

/-- Every location attribute of a list of statements is empty. -/
def spans_empty_statements : List Statement → Bool
  | [] => true
  | statement :: rest =>
      spans_empty_statement statement && spans_empty_statements rest

/-- Every location attribute of a statement is empty. -/
def spans_empty_statement : Statement → Bool
  | .mk kind span => span_is_empty span && spans_empty_statement_kind kind

/-- Every location attribute of a statement's data is empty. -/
def spans_empty_statement_kind : StatementKind → Bool
  | .Let let_statement => spans_empty_let_statement let_statement
  | .Constrain constrain_statement =>
      spans_empty_constrain_statement constrain_statement
  | .Expression expression => spans_empty_expression expression
  | .Assign assign_statement => spans_empty_assign_statement assign_statement
  | .For for_loop_statement => spans_empty_for_loop_statement for_loop_statement
  | .Comptime statement => spans_empty_statement statement
  | .Semi expression => spans_empty_expression expression
  | .Break => true
  | .Continue => true
  | .Error => true

/-- Every location attribute of a let binding is empty. -/
def spans_empty_let_statement : LetStatement → Bool
  | .mk pattern typ expression =>
      spans_empty_pattern pattern && spans_empty_unresolved_type typ &&
        spans_empty_expression expression

/-- Every location attribute of a constrain statement is empty. -/
def spans_empty_constrain_statement : ConstrainStatement → Bool
  | .mk expression message =>
      spans_empty_expression expression &&
        spans_empty_option_expression message

/-- Every location attribute of an assignment is empty. -/
def spans_empty_assign_statement : AssignStatement → Bool
  | .mk lvalue expression =>
      spans_empty_lvalue lvalue && spans_empty_expression expression

/-- Every location attribute of an lvalue is empty. -/
def spans_empty_lvalue : LValue → Bool
  | .Ident ident => spans_empty_ident ident
  | .MemberAccess object field_name _ =>
      spans_empty_lvalue object && spans_empty_ident field_name
  | .Index array index _ =>
      spans_empty_lvalue array && spans_empty_expression index
  | .Dereference lvalue _ => spans_empty_lvalue lvalue

/-- Every location attribute of a for loop is empty. -/
def spans_empty_for_loop_statement : ForLoopStatement → Bool
  | .mk identifier range block span =>
      span_is_empty span && spans_empty_ident identifier &&
        spans_empty_for_range range && spans_empty_expression block

/-- Every location attribute of an iteration range is empty. -/
def spans_empty_for_range : ForRange → Bool
  | .Range from_expression to_expression =>
      spans_empty_expression from_expression &&
        spans_empty_expression to_expression
  | .Array expression => spans_empty_expression expression

/-- Every location attribute of a prefix operation is empty. -/
def spans_empty_prefix_expression : PrefixExpression → Bool
  | .mk _ rhs => spans_empty_expression rhs

/-- Every location attribute of an indexing is empty. -/
def spans_empty_index_expression : IndexExpression → Bool
  | .mk collection index =>
      spans_empty_expression collection && spans_empty_expression index

/-- Every location attribute of a member access is empty. -/
def spans_empty_member_access_expression : MemberAccessExpression → Bool
  | .mk lhs rhs => spans_empty_expression lhs && spans_empty_ident rhs

/-- Every location attribute of a cast is empty. -/
def spans_empty_cast_expression : CastExpression → Bool
  | .mk lhs typ =>
      spans_empty_expression lhs && spans_empty_unresolved_type typ

/-- Every location attribute of an infix operation is empty. -/
def spans_empty_infix_expression : InfixExpression → Bool
  | .mk lhs _ rhs =>
      spans_empty_expression lhs && spans_empty_expression rhs

/-- Every location attribute of a call is empty. -/
def spans_empty_call_expression : CallExpression → Bool
  | .mk func arguments =>
      spans_empty_expression func && spans_empty_expressions arguments

/-- Every location attribute of a method call is empty. -/
def spans_empty_method_call_expression : MethodCallExpression → Bool
  | .mk object method_name generics arguments =>
      spans_empty_expression object && spans_empty_ident method_name &&
        (match generics with
          | some generics => spans_empty_unresolved_types generics
          | none => true) &&
        spans_empty_expressions arguments

/-- Every location attribute of a constructor is empty. -/
def spans_empty_constructor_expression : ConstructorExpression → Bool
  | .mk type_name fields =>
      spans_empty_path type_name && spans_empty_constructor_fields fields

/-- Every location attribute of a list of named field values is empty. -/
def spans_empty_constructor_fields : List (Ident × Expression) → Bool
  | [] => true
  | (name, expression) :: rest =>
      spans_empty_ident name && spans_empty_expression expression &&
        spans_empty_constructor_fields rest

/-- Every location attribute of a conditional is empty. -/
def spans_empty_if_expression : IfExpression → Bool
  | .mk condition consequence alternative =>
      spans_empty_expression condition && spans_empty_expression consequence &&
        spans_empty_option_expression alternative

/-- Every location attribute of a lambda is empty. -/
def spans_empty_lambda : Lambda → Bool
  | .mk parameters return_type body =>
      spans_empty_lambda_parameters parameters &&
        spans_empty_unresolved_type return_type && spans_empty_expression body

/-- Every location attribute of a list of lambda parameters is empty. -/
def spans_empty_lambda_parameters : List (Pattern × UnresolvedType) → Bool
  | [] => true
  | (name, typ) :: rest =>
      spans_empty_pattern name && spans_empty_unresolved_type typ &&
        spans_empty_lambda_parameters rest

end

/-- Every location attribute of a function parameter is empty. -/
def spans_empty_param (param : Param) : Bool :=
  span_is_empty param.span && spans_empty_pattern param.pattern &&
    spans_empty_unresolved_type param.typ

/-- Every location attribute of a function is empty. -/
def spans_empty_noir_function (noir_function : NoirFunction) : Bool :=
  let d := noir_function.defn
  span_is_empty d.span && spans_empty_ident d.name &&
    d.generics.all spans_empty_unresolved_generic &&
    d.parameters.all spans_empty_param &&
    d.where_clause.all spans_empty_unresolved_trait_constraint &&
    spans_empty_function_return_type d.return_type &&
    spans_empty_block_expression d.body

/-- Every location attribute of a trait member is empty. -/
def spans_empty_trait_item : TraitItem → Bool
  | .Function name generics parameters return_type where_clause body =>
      spans_empty_ident name &&
        generics.all spans_empty_unresolved_generic &&
        parameters.all (fun (name, typ) =>
          spans_empty_ident name && spans_empty_unresolved_type typ) &&
        spans_empty_function_return_type return_type &&
        where_clause.all spans_empty_unresolved_trait_constraint &&
        (match body with
          | some body => spans_empty_block_expression body
          | none => true)
  | .Constant name typ default_value =>
      spans_empty_ident name && spans_empty_unresolved_type typ &&
        spans_empty_option_expression default_value
  | .«Type» name => spans_empty_ident name

/-- Every location attribute of a trait-impl member is empty. -/
def spans_empty_trait_impl_item : TraitImplItem → Bool
  | .Function noir_function => spans_empty_noir_function noir_function
  | .Constant name typ default_value =>
      spans_empty_ident name && spans_empty_unresolved_type typ &&
        spans_empty_expression default_value
  | .«Type» name alias_typ =>
      spans_empty_ident name && spans_empty_unresolved_type alias_typ

/-- Every location attribute of a trait declaration is empty. -/
def spans_empty_noir_trait (noir_trait : NoirTrait) : Bool :=
  span_is_empty noir_trait.span && spans_empty_ident noir_trait.name &&
    noir_trait.generics.all spans_empty_unresolved_generic &&
    noir_trait.where_clause.all spans_empty_unresolved_trait_constraint &&
    noir_trait.items.all spans_empty_trait_item

/-- Every location attribute of a trait implementation is empty. -/
def spans_empty_noir_trait_impl (noir_trait_impl : NoirTraitImpl) : Bool :=
  spans_empty_path noir_trait_impl.trait_name &&
    noir_trait_impl.impl_generics.all spans_empty_unresolved_generic &&
    spans_empty_unresolved_type noir_trait_impl.object_type &&
    noir_trait_impl.where_clause.all spans_empty_unresolved_trait_constraint &&
    noir_trait_impl.items.all spans_empty_trait_impl_item

/-- Every location attribute of an inherent impl is empty. -/
def spans_empty_type_impl (type_impl : TypeImpl) : Bool :=
  spans_empty_unresolved_type type_impl.object_type &&
    span_is_empty type_impl.type_span &&
    type_impl.generics.all spans_empty_unresolved_generic &&
    type_impl.where_clause.all spans_empty_unresolved_trait_constraint &&
    type_impl.methods.all (fun (noir_function, _) =>
      spans_empty_noir_function noir_function)

/-- Every location attribute of a struct declaration is empty. -/
def spans_empty_noir_struct (noir_struct : NoirStruct) : Bool :=
  span_is_empty noir_struct.span && spans_empty_ident noir_struct.name &&
    noir_struct.fields.all (fun (name, typ) =>
      spans_empty_ident name && spans_empty_unresolved_type typ) &&
    noir_struct.generics.all spans_empty_unresolved_generic

/-- Every location attribute of a type alias is empty. -/
def spans_empty_noir_type_alias (noir_type_alias : NoirTypeAlias) : Bool :=
  span_is_empty noir_type_alias.span &&
    spans_empty_ident noir_type_alias.name &&
    spans_empty_unresolved_type noir_type_alias.typ

/-- Every location attribute of a module declaration is empty. -/
def spans_empty_module_declaration (module_declaration : ModuleDeclaration) :
    Bool :=
  spans_empty_ident module_declaration.ident

mutual

/-- Every location attribute of an import tree is empty. -/
def spans_empty_use_tree : UseTree → Bool
  | .mk prefix_path kind =>
      spans_empty_path prefix_path && spans_empty_use_tree_kind kind

/-- Every location attribute of an import tree's data is empty. -/
def spans_empty_use_tree_kind : UseTreeKind → Bool
  | .Path name alias_name =>
      spans_empty_ident name &&
        (match alias_name with
          | some alias_name => spans_empty_ident alias_name
          | none => true)
  | .List use_trees => spans_empty_use_trees use_trees

/-- Every location attribute of a list of import trees is empty. -/
def spans_empty_use_trees : List UseTree → Bool
  | [] => true
  | use_tree :: rest =>
      spans_empty_use_tree use_tree && spans_empty_use_trees rest

end

mutual

/-- Every location attribute of a module is empty. -/
def spans_empty_parsed_module : ParsedModule → Bool
  | .mk items => spans_empty_items items

/-- Every location attribute of a list of items is empty. -/
def spans_empty_items : List Item → Bool
  | [] => true
  | item :: rest => spans_empty_item item && spans_empty_items rest

/-- Every location attribute of an item is empty. -/
def spans_empty_item : Item → Bool
  | .mk kind span => span_is_empty span && spans_empty_item_kind kind

/-- Every location attribute of an item's data is empty. -/
def spans_empty_item_kind : ItemKind → Bool
  | .Function noir_function => spans_empty_noir_function noir_function
  | .Trait noir_trait => spans_empty_noir_trait noir_trait
  | .TraitImpl noir_trait_impl => spans_empty_noir_trait_impl noir_trait_impl
  | .Impl type_impl => spans_empty_type_impl type_impl
  | .Global let_statement => spans_empty_let_statement let_statement
  | .Submodules parsed_submodule =>
      spans_empty_parsed_submodule parsed_submodule
  | .ModuleDecl module_declaration =>
      spans_empty_module_declaration module_declaration
  | .Import use_tree => spans_empty_use_tree use_tree
  | .Struct noir_struct => spans_empty_noir_struct noir_struct
  | .TypeAlias noir_type_alias => spans_empty_noir_type_alias noir_type_alias

/-- Every location attribute of a submodule is empty. -/
def spans_empty_parsed_submodule : ParsedSubModule → Bool
  | .mk name contents =>
      spans_empty_ident name && spans_empty_parsed_module contents

end

/-!
Spec-side erasure: `strip_*` replaces every positional datum of a tree — node
location attributes and auxiliary spans alike — by the empty sentinel, leaving
all other content untouched.  Two trees with equal `strip_*` images agree on
node tags, child count and order, identifier text, literal values and
operator/variant kinds, and differ at most in positional data.
-/

/-- Positional erasure of an identifier. -/
def strip_ident (ident : Ident) : Ident :=
  { ident with span := default_span }

/-- Positional erasure of a path segment. -/
def strip_path_segment (segment : PathSegment) : PathSegment :=
  { segment with span := default_span, ident := strip_ident segment.ident }

/-- Positional erasure of a path. -/
def strip_path (path : Path) : Path :=
  { path with span := default_span
              segments := path.segments.map strip_path_segment }

mutual

/-- Positional erasure of a pattern (auxiliary spans included). -/
def strip_pattern : Pattern → Pattern
  | .Identifier ident => .Identifier (strip_ident ident)
  | .Mutable pattern _ is_synthesized =>
      .Mutable (strip_pattern pattern) default_span is_synthesized
  | .Tuple patterns _ => .Tuple (strip_patterns patterns) default_span
  | .Struct path fields _ =>
      .Struct (strip_path path) (strip_pattern_fields fields) default_span

/-- Positional erasure of a list of patterns. -/
def strip_patterns : List Pattern → List Pattern
  | [] => []
  | pattern :: rest => strip_pattern pattern :: strip_patterns rest

/-- Positional erasure of a list of named patterns. -/
def strip_pattern_fields : List (Ident × Pattern) → List (Ident × Pattern)
  | [] => []
  | (name, pattern) :: rest =>
      (strip_ident name, strip_pattern pattern) :: strip_pattern_fields rest

end

/-- Positional erasure of a type-level expression. -/
def strip_unresolved_type_expression :
    UnresolvedTypeExpression → UnresolvedTypeExpression
  | .Variable path => .Variable (strip_path path)
  | .BinaryOperation lhs op rhs extra =>
      .BinaryOperation (strip_unresolved_type_expression lhs) op
        (strip_unresolved_type_expression rhs) extra
  | .Constant value extra => .Constant value extra

mutual

/-- Positional erasure of a type. -/
def strip_unresolved_type : UnresolvedType → UnresolvedType
  | .mk typ _ => .mk (strip_unresolved_type_data typ) default_span

/-- Positional erasure of a type's data. -/
def strip_unresolved_type_data : UnresolvedTypeData → UnresolvedTypeData
  | .Array size element =>
      .Array (strip_unresolved_type_expression size)
        (strip_unresolved_type element)
  | .Slice element => .Slice (strip_unresolved_type element)
  | .Expression expr => .Expression (strip_unresolved_type_expression expr)
  | .FormatString size element =>
      .FormatString (strip_unresolved_type_expression size)
        (strip_unresolved_type element)
  | .Parenthesized inner => .Parenthesized (strip_unresolved_type inner)
  | .Named path generics extra =>
      .Named (strip_path path) (strip_unresolved_types generics) extra
  | .TraitAsType path generics =>
      .TraitAsType (strip_path path) (strip_unresolved_types generics)
  | .MutableReference inner => .MutableReference (strip_unresolved_type inner)
  | .Tuple elements => .Tuple (strip_unresolved_types elements)
  | .Function args ret extra =>
      .Function (strip_unresolved_types args) (strip_unresolved_type ret) extra
  | .FieldElement => .FieldElement
  | .Integer signed bits => .Integer signed bits
  | .Bool => .Bool
  | .String size => .String size
  | .Unit => .Unit
  | .Quoted tag => .Quoted tag
  | .Resolved id => .Resolved id
  | .Unspecified => .Unspecified
  | .Error => .Error

/-- Positional erasure of a list of types. -/
def strip_unresolved_types : List UnresolvedType → List UnresolvedType
  | [] => []
  | typ :: rest => strip_unresolved_type typ :: strip_unresolved_types rest

end

/-- Positional erasure of a generic parameter. -/
def strip_unresolved_generic : UnresolvedGeneric → UnresolvedGeneric
  | .Variable ident => .Variable (strip_ident ident)
  | .Numeric ident typ => .Numeric (strip_ident ident) (strip_unresolved_type typ)

/-- Positional erasure of a trait-bound constraint. -/
def strip_unresolved_trait_constraint (c : UnresolvedTraitConstraint) :
    UnresolvedTraitConstraint :=
  { typ := strip_unresolved_type c.typ }

/-- Positional erasure of a return type. -/
def strip_function_return_type : FunctionReturnType → FunctionReturnType
  | .Ty typ => .Ty (strip_unresolved_type typ)
  | .Default extra => .Default extra

mutual

/-- Positional erasure of an expression. -/
def strip_expression : Expression → Expression
  | .mk kind _ => .mk (strip_expression_kind kind) default_span

/-- Positional erasure of an expression's data (auxiliary spans included). -/
def strip_expression_kind : ExpressionKind → ExpressionKind
  | .Literal literal => .Literal (strip_literal literal)
  | .Block block_expression => .Block (strip_block_expression block_expression)
  | .Prefix prefix_expression =>
      .Prefix (strip_prefix_expression prefix_expression)
  | .Index index_expression => .Index (strip_index_expression index_expression)
  | .Call call_expression => .Call (strip_call_expression call_expression)
  | .MethodCall method_call_expression =>
      .MethodCall (strip_method_call_expression method_call_expression)
  | .Constructor constructor_expression =>
      .Constructor (strip_constructor_expression constructor_expression)
  | .MemberAccess member_access_expression =>
      .MemberAccess (strip_member_access_expression member_access_expression)
  | .Cast cast_expression => .Cast (strip_cast_expression cast_expression)
  | .Infix infix_expression => .Infix (strip_infix_expression infix_expression)
  | .If if_expression => .If (strip_if_expression if_expression)
  | .Variable path => .Variable (strip_path path)
  | .Tuple expressions => .Tuple (strip_expressions expressions)
  | .Lambda lambda => .Lambda (strip_lambda lambda)
  | .Parenthesized expression => .Parenthesized (strip_expression expression)
  | .Unquote expression => .Unquote (strip_expression expression)
  | .Comptime block_expression _ =>
      .Comptime (strip_block_expression block_expression) default_span
  | .Quote tokens => .Quote tokens
  | .Resolved id => .Resolved id
  | .Error => .Error

/-- Positional erasure of a list of expressions. -/
def strip_expressions : List Expression → List Expression
  | [] => []
  | expression :: rest => strip_expression expression :: strip_expressions rest

/-- Positional erasure of an optional expression. -/
def strip_option_expression : Option Expression → Option Expression
  | some expression => some (strip_expression expression)
  | none => none

/-- Positional erasure of a literal. -/
def strip_literal : Literal → Literal
  | .Array array_literal => .Array (strip_array_literal array_literal)
  | .Slice array_literal => .Slice (strip_array_literal array_literal)
  | .Bool value => .Bool value
  | .Integer value negative => .Integer value negative
  | .Str value => .Str value
  | .RawStr value hashes => .RawStr value hashes
  | .FmtStr value => .FmtStr value
  | .Unit => .Unit

/-- Positional erasure of an array literal. -/
def strip_array_literal : ArrayLiteral → ArrayLiteral
  | .Standard expressions => .Standard (strip_expressions expressions)
  | .Repeated repeated_element length =>
      .Repeated (strip_expression repeated_element) (strip_expression length)

/-- Positional erasure of a block. -/
def strip_block_expression : BlockExpression → BlockExpression
  | .mk statements => .mk (strip_statements statements)

/-- Positional erasure of a list of statements. -/
def strip_statements : List Statement → List Statement
  | [] => []
  | statement :: rest => strip_statement statement :: strip_statements rest

/-- Positional erasure of a statement. -/
def strip_statement : Statement → Statement
  | .mk kind _ => .mk (strip_statement_kind kind) default_span

/-- Positional erasure of a statement's data. -/
def strip_statement_kind : StatementKind → StatementKind
  | .Let let_statement => .Let (strip_let_statement let_statement)
  | .Constrain constrain_statement =>
      .Constrain (strip_constrain_statement constrain_statement)
  | .Expression expression => .Expression (strip_expression expression)
  | .Assign assign_statement => .Assign (strip_assign_statement assign_statement)
  | .For for_loop_statement => .For (strip_for_loop_statement for_loop_statement)
  | .Comptime statement => .Comptime (strip_statement statement)
  | .Semi expression => .Semi (strip_expression expression)
  | .Break => .Break
  | .Continue => .Continue
  | .Error => .Error

/-- Positional erasure of a let binding. -/
def strip_let_statement : LetStatement → LetStatement
  | .mk pattern typ expression =>
      .mk (strip_pattern pattern) (strip_unresolved_type typ)
        (strip_expression expression)

/-- Positional erasure of a constrain statement. -/
def strip_constrain_statement : ConstrainStatement → ConstrainStatement
  | .mk expression message =>
      .mk (strip_expression expression) (strip_option_expression message)

/-- Positional erasure of an assignment. -/
def strip_assign_statement : AssignStatement → AssignStatement
  | .mk lvalue expression =>
      .mk (strip_lvalue lvalue) (strip_expression expression)

/-- Positional erasure of an lvalue (auxiliary spans included). -/
def strip_lvalue : LValue → LValue
  | .Ident ident => .Ident (strip_ident ident)
  | .MemberAccess object field_name _ =>
      .MemberAccess (strip_lvalue object) (strip_ident field_name) default_span
  | .Index array index _ =>
      .Index (strip_lvalue array) (strip_expression index) default_span
  | .Dereference lvalue _ => .Dereference (strip_lvalue lvalue) default_span

/-- Positional erasure of a for loop. -/
def strip_for_loop_statement : ForLoopStatement → ForLoopStatement
  | .mk identifier range block _ =>
      .mk (strip_ident identifier) (strip_for_range range)
        (strip_expression block) default_span

/-- Positional erasure of an iteration range. -/
def strip_for_range : ForRange → ForRange
  | .Range from_expression to_expression =>
      .Range (strip_expression from_expression)
        (strip_expression to_expression)
  | .Array expression => .Array (strip_expression expression)

/-- Positional erasure of a prefix operation. -/
def strip_prefix_expression : PrefixExpression → PrefixExpression
  | .mk op rhs => .mk op (strip_expression rhs)

/-- Positional erasure of an indexing. -/
def strip_index_expression : IndexExpression → IndexExpression
  | .mk collection index =>
      .mk (strip_expression collection) (strip_expression index)

/-- Positional erasure of a call. -/
def strip_call_expression : CallExpression → CallExpression
  | .mk func arguments =>
      .mk (strip_expression func) (strip_expressions arguments)

/-- Positional erasure of a method call. -/
def strip_method_call_expression : MethodCallExpression → MethodCallExpression
  | .mk object method_name generics arguments =>
      .mk (strip_expression object) (strip_ident method_name)
        (match generics with
          | some generics => some (strip_unresolved_types generics)
          | none => none)
        (strip_expressions arguments)

/-- Positional erasure of a constructor. -/
def strip_constructor_expression : ConstructorExpression → ConstructorExpression
  | .mk type_name fields =>
      .mk (strip_path type_name) (strip_constructor_fields fields)

/-- Positional erasure of a list of named field values. -/
def strip_constructor_fields :
    List (Ident × Expression) → List (Ident × Expression)
  | [] => []
  | (name, expression) :: rest =>
      (strip_ident name, strip_expression expression) ::
        strip_constructor_fields rest

/-- Positional erasure of a member access. -/
def strip_member_access_expression :
    MemberAccessExpression → MemberAccessExpression
  | .mk lhs rhs => .mk (strip_expression lhs) (strip_ident rhs)

/-- Positional erasure of a cast. -/
def strip_cast_expression : CastExpression → CastExpression
  | .mk lhs typ => .mk (strip_expression lhs) (strip_unresolved_type typ)

/-- Positional erasure of an infix operation. -/
def strip_infix_expression : InfixExpression → InfixExpression
  | .mk lhs op rhs => .mk (strip_expression lhs) op (strip_expression rhs)

/-- Positional erasure of a conditional. -/
def strip_if_expression : IfExpression → IfExpression
  | .mk condition consequence alternative =>
      .mk (strip_expression condition) (strip_expression consequence)
        (strip_option_expression alternative)

/-- Positional erasure of a lambda. -/
def strip_lambda : Lambda → Lambda
  | .mk parameters return_type body =>
      .mk (strip_lambda_parameters parameters)
        (strip_unresolved_type return_type) (strip_expression body)

/-- Positional erasure of a list of lambda parameters. -/
def strip_lambda_parameters :
    List (Pattern × UnresolvedType) → List (Pattern × UnresolvedType)
  | [] => []
  | (name, typ) :: rest =>
      (strip_pattern name, strip_unresolved_type typ) ::
        strip_lambda_parameters rest

end

/-- Positional erasure of a function. -/
def strip_noir_function (noir_function : NoirFunction) : NoirFunction :=
  let d := noir_function.defn
  { defn :=
    { name := strip_ident d.name
      generics := d.generics.map strip_unresolved_generic
      parameters := d.parameters.map (fun param =>
        { pattern := strip_pattern param.pattern
          typ := strip_unresolved_type param.typ
          span := default_span })
      where_clause := d.where_clause.map strip_unresolved_trait_constraint
      return_type := strip_function_return_type d.return_type
      body := strip_block_expression d.body
      span := default_span } }

/-- Positional erasure of a trait member. -/
def strip_trait_item : TraitItem → TraitItem
  | .Function name generics parameters return_type where_clause body =>
      .Function (strip_ident name) (generics.map strip_unresolved_generic)
        (parameters.map (fun (name, typ) =>
          (strip_ident name, strip_unresolved_type typ)))
        (strip_function_return_type return_type)
        (where_clause.map strip_unresolved_trait_constraint)
        (match body with
          | some body => some (strip_block_expression body)
          | none => none)
  | .Constant name typ default_value =>
      .Constant (strip_ident name) (strip_unresolved_type typ)
        (strip_option_expression default_value)
  | .«Type» name => .«Type» (strip_ident name)

/-- Positional erasure of a trait-impl member. -/
def strip_trait_impl_item : TraitImplItem → TraitImplItem
  | .Function noir_function => .Function (strip_noir_function noir_function)
  | .Constant name typ default_value =>
      .Constant (strip_ident name) (strip_unresolved_type typ)
        (strip_expression default_value)
  | .«Type» name alias_typ =>
      .«Type» (strip_ident name) (strip_unresolved_type alias_typ)

/-- Positional erasure of a trait declaration. -/
def strip_noir_trait (noir_trait : NoirTrait) : NoirTrait :=
  { name := strip_ident noir_trait.name
    generics := noir_trait.generics.map strip_unresolved_generic
    where_clause := noir_trait.where_clause.map strip_unresolved_trait_constraint
    items := noir_trait.items.map strip_trait_item
    span := default_span }

/-- Positional erasure of a trait implementation. -/
def strip_noir_trait_impl (noir_trait_impl : NoirTraitImpl) : NoirTraitImpl :=
  { trait_name := strip_path noir_trait_impl.trait_name
    impl_generics := noir_trait_impl.impl_generics.map strip_unresolved_generic
    object_type := strip_unresolved_type noir_trait_impl.object_type
    where_clause :=
      noir_trait_impl.where_clause.map strip_unresolved_trait_constraint
    items := noir_trait_impl.items.map strip_trait_impl_item }

/-- Positional erasure of an inherent impl. -/
def strip_type_impl (type_impl : TypeImpl) : TypeImpl :=
  { object_type := strip_unresolved_type type_impl.object_type
    type_span := default_span
    generics := type_impl.generics.map strip_unresolved_generic
    where_clause := type_impl.where_clause.map strip_unresolved_trait_constraint
    methods := type_impl.methods.map (fun (noir_function, extra) =>
      (strip_noir_function noir_function, extra)) }

/-- Positional erasure of a struct declaration. -/
def strip_noir_struct (noir_struct : NoirStruct) : NoirStruct :=
  { name := strip_ident noir_struct.name
    fields := noir_struct.fields.map (fun (name, typ) =>
      (strip_ident name, strip_unresolved_type typ))
    generics := noir_struct.generics.map strip_unresolved_generic
    span := default_span }

/-- Positional erasure of a type alias. -/
def strip_noir_type_alias (noir_type_alias : NoirTypeAlias) : NoirTypeAlias :=
  { name := strip_ident noir_type_alias.name
    typ := strip_unresolved_type noir_type_alias.typ
    span := default_span }

/-- Positional erasure of a module declaration. -/
def strip_module_declaration (module_declaration : ModuleDeclaration) :
    ModuleDeclaration :=
  { ident := strip_ident module_declaration.ident }

mutual

/-- Positional erasure of an import tree. -/
def strip_use_tree : UseTree → UseTree
  | .mk prefix_path kind =>
      .mk (strip_path prefix_path) (strip_use_tree_kind kind)

/-- Positional erasure of an import tree's data. -/
def strip_use_tree_kind : UseTreeKind → UseTreeKind
  | .Path name alias_name =>
      .Path (strip_ident name)
        (match alias_name with
          | some alias_name => some (strip_ident alias_name)
          | none => none)
  | .List use_trees => .List (strip_use_trees use_trees)

/-- Positional erasure of a list of import trees. -/
def strip_use_trees : List UseTree → List UseTree
  | [] => []
  | use_tree :: rest => strip_use_tree use_tree :: strip_use_trees rest

end

mutual

/-- Positional erasure of a module. -/
def strip_parsed_module : ParsedModule → ParsedModule
  | .mk items => .mk (strip_items items)

/-- Positional erasure of a list of items. -/
def strip_items : List Item → List Item
  | [] => []
  | item :: rest => strip_item item :: strip_items rest

/-- Positional erasure of an item. -/
def strip_item : Item → Item
  | .mk kind _ => .mk (strip_item_kind kind) default_span

/-- Positional erasure of an item's data. -/
def strip_item_kind : ItemKind → ItemKind
  | .Function noir_function => .Function (strip_noir_function noir_function)
  | .Trait noir_trait => .Trait (strip_noir_trait noir_trait)
  | .TraitImpl noir_trait_impl =>
      .TraitImpl (strip_noir_trait_impl noir_trait_impl)
  | .Impl type_impl => .Impl (strip_type_impl type_impl)
  | .Global let_statement => .Global (strip_let_statement let_statement)
  | .Submodules parsed_submodule =>
      .Submodules (strip_parsed_submodule parsed_submodule)
  | .ModuleDecl module_declaration =>
      .ModuleDecl (strip_module_declaration module_declaration)
  | .Import use_tree => .Import (strip_use_tree use_tree)
  | .Struct noir_struct => .Struct (strip_noir_struct noir_struct)
  | .TypeAlias noir_type_alias =>
      .TypeAlias (strip_noir_type_alias noir_type_alias)

/-- Positional erasure of a submodule. -/
def strip_parsed_submodule : ParsedSubModule → ParsedSubModule
  | .mk name contents => .mk (strip_ident name) (strip_parsed_module contents)

end

/-!
Completeness lemmas: after `empty_*`, every location attribute equals the
empty sentinel.
-/

theorem empty_ident_spans_empty (ident : Ident) :
    spans_empty_ident (empty_ident ident) = true := by
  simp [empty_ident, spans_empty_ident, span_is_empty]

theorem empty_path_segment_spans_empty (segment : PathSegment) :
    spans_empty_path_segment (empty_path_segment segment) = true := by
  simp [empty_path_segment, spans_empty_path_segment, span_is_empty,
    empty_ident_spans_empty]

theorem empty_path_spans_empty (path : Path) :
    spans_empty_path (empty_path path) = true := by
  simp [empty_path, spans_empty_path, span_is_empty, List.all_map,
    Function.comp, empty_path_segment_spans_empty]

mutual

theorem empty_pattern_spans_empty (pattern : Pattern) :
    spans_empty_pattern (empty_pattern pattern) = true := by
  match pattern with
  | .Identifier ident =>
      simp [empty_pattern, spans_empty_pattern, empty_ident_spans_empty]
  | .Mutable pattern span is_synthesized =>
      simpa [empty_pattern, spans_empty_pattern] using
        empty_pattern_spans_empty pattern
  | .Tuple patterns span =>
      simpa [empty_pattern, spans_empty_pattern] using
        empty_patterns_spans_empty patterns
  | .Struct path fields span =>
      simp [empty_pattern, spans_empty_pattern, empty_path_spans_empty,
        empty_pattern_fields_spans_empty fields]

theorem empty_patterns_spans_empty (patterns : List Pattern) :
    spans_empty_patterns (empty_patterns patterns) = true := by
  match patterns with
  | [] => simp [empty_patterns, spans_empty_patterns]
  | pattern :: rest =>
      simp [empty_patterns, spans_empty_patterns,
        empty_pattern_spans_empty pattern, empty_patterns_spans_empty rest]

theorem empty_pattern_fields_spans_empty (fields : List (Ident × Pattern)) :
    spans_empty_pattern_fields (empty_pattern_fields fields) = true := by
  match fields with
  | [] => simp [empty_pattern_fields, spans_empty_pattern_fields]
  | (name, pattern) :: rest =>
      simp [empty_pattern_fields, spans_empty_pattern_fields,
        empty_ident_spans_empty, empty_pattern_spans_empty pattern,
        empty_pattern_fields_spans_empty rest]

end

theorem empty_unresolved_type_expression_spans_empty
    (e : UnresolvedTypeExpression) :
    spans_empty_unresolved_type_expression
      (empty_unresolved_type_expression e) = true := by
  match e with
  | .Variable path =>
      simp [empty_unresolved_type_expression,
        spans_empty_unresolved_type_expression, empty_path_spans_empty]
  | .BinaryOperation lhs op rhs extra =>
      simp [empty_unresolved_type_expression,
        spans_empty_unresolved_type_expression,
        empty_unresolved_type_expression_spans_empty lhs,
        empty_unresolved_type_expression_spans_empty rhs]
  | .Constant value extra =>
      simp [empty_unresolved_type_expression,
        spans_empty_unresolved_type_expression]

mutual

theorem empty_unresolved_type_spans_empty (typ : UnresolvedType) :
    spans_empty_unresolved_type (empty_unresolved_type typ) = true := by
  match typ with
  | .mk typ span =>
      simp [empty_unresolved_type, spans_empty_unresolved_type, span_is_empty,
        empty_unresolved_type_data_spans_empty typ]

theorem empty_unresolved_type_data_spans_empty (data : UnresolvedTypeData) :
    spans_empty_unresolved_type_data (empty_unresolved_type_data data) =
      true := by
  match data with
  | .Array size element =>
      simp [empty_unresolved_type_data, spans_empty_unresolved_type_data,
        empty_unresolved_type_expression_spans_empty,
        empty_unresolved_type_spans_empty element]
  | .Slice element =>
      simpa [empty_unresolved_type_data, spans_empty_unresolved_type_data]
        using empty_unresolved_type_spans_empty element
  | .Expression expr =>
      simp [empty_unresolved_type_data, spans_empty_unresolved_type_data,
        empty_unresolved_type_expression_spans_empty]
  | .FormatString size element =>
      simp [empty_unresolved_type_data, spans_empty_unresolved_type_data,
        empty_unresolved_type_expression_spans_empty,
        empty_unresolved_type_spans_empty element]
  | .Parenthesized inner =>
      simpa [empty_unresolved_type_data, spans_empty_unresolved_type_data]
        using empty_unresolved_type_spans_empty inner
  | .Named path generics extra =>
      simp [empty_unresolved_type_data, spans_empty_unresolved_type_data,
        empty_path_spans_empty, empty_unresolved_types_spans_empty generics]
  | .TraitAsType path generics =>
      simp [empty_unresolved_type_data, spans_empty_unresolved_type_data,
        empty_path_spans_empty, empty_unresolved_types_spans_empty generics]
  | .MutableReference inner =>
      simpa [empty_unresolved_type_data, spans_empty_unresolved_type_data]
        using empty_unresolved_type_spans_empty inner
  | .Tuple elements =>
      simpa [empty_unresolved_type_data, spans_empty_unresolved_type_data]
        using empty_unresolved_types_spans_empty elements
  | .Function args ret extra =>
      simp [empty_unresolved_type_data, spans_empty_unresolved_type_data,
        empty_unresolved_types_spans_empty args,
        empty_unresolved_type_spans_empty ret]
  | .FieldElement =>
      simp [empty_unresolved_type_data, spans_empty_unresolved_type_data]
  | .Integer signed bits =>
      simp [empty_unresolved_type_data, spans_empty_unresolved_type_data]
  | .Bool =>
      simp [empty_unresolved_type_data, spans_empty_unresolved_type_data]
  | .String size =>
      simp [empty_unresolved_type_data, spans_empty_unresolved_type_data]
  | .Unit =>
      simp [empty_unresolved_type_data, spans_empty_unresolved_type_data]
  | .Quoted tag =>
      simp [empty_unresolved_type_data, spans_empty_unresolved_type_data]
  | .Resolved id =>
      simp [empty_unresolved_type_data, spans_empty_unresolved_type_data]
  | .Unspecified =>
      simp [empty_unresolved_type_data, spans_empty_unresolved_type_data]
  | .Error =>
      simp [empty_unresolved_type_data, spans_empty_unresolved_type_data]

theorem empty_unresolved_types_spans_empty (typs : List UnresolvedType) :
    spans_empty_unresolved_types (empty_unresolved_types typs) = true := by
  match typs with
  | [] => simp [empty_unresolved_types, spans_empty_unresolved_types]
  | typ :: rest =>
      simp [empty_unresolved_types, spans_empty_unresolved_types,
        empty_unresolved_type_spans_empty typ,
        empty_unresolved_types_spans_empty rest]

end

theorem empty_unresolved_generic_spans_empty (generic : UnresolvedGeneric) :
    spans_empty_unresolved_generic (empty_unresolved_generic generic) =
      true := by
  match generic with
  | .Variable ident =>
      simp [empty_unresolved_generic, spans_empty_unresolved_generic,
        empty_ident_spans_empty]
  | .Numeric ident typ =>
      simp [empty_unresolved_generic, spans_empty_unresolved_generic,
        empty_ident_spans_empty, empty_unresolved_type_spans_empty]

theorem empty_unresolved_generics_all_spans_empty
    (generics : List UnresolvedGeneric) :
    (empty_unresolved_generics generics).all spans_empty_unresolved_generic =
      true := by
  simp [empty_unresolved_generics, List.all_map, Function.comp,
    empty_unresolved_generic_spans_empty]

theorem empty_unresolved_trait_constraint_spans_empty
    (c : UnresolvedTraitConstraint) :
    spans_empty_unresolved_trait_constraint
      (empty_unresolved_trait_constraint c) = true := by
  simp [empty_unresolved_trait_constraint,
    spans_empty_unresolved_trait_constraint, empty_unresolved_type_spans_empty]

theorem empty_unresolved_trait_constraints_all_spans_empty
    (cs : List UnresolvedTraitConstraint) :
    (empty_unresolved_trait_constraints cs).all
      spans_empty_unresolved_trait_constraint = true := by
  simp [empty_unresolved_trait_constraints, List.all_map, Function.comp,
    empty_unresolved_trait_constraint_spans_empty]

theorem empty_function_return_type_spans_empty (rt : FunctionReturnType) :
    spans_empty_function_return_type (empty_function_return_type rt) =
      true := by
  match rt with
  | .Ty typ =>
      simp [empty_function_return_type, spans_empty_function_return_type,
        empty_unresolved_type_spans_empty]
  | .Default extra =>
      simp [empty_function_return_type, spans_empty_function_return_type]

mutual

theorem empty_expression_spans_empty (expression : Expression) :
    spans_empty_expression (empty_expression expression) = true := by
  match expression with
  | .mk kind span =>
      simp [empty_expression, spans_empty_expression, span_is_empty,
        empty_expression_kind_spans_empty kind]

theorem empty_expression_kind_spans_empty (kind : ExpressionKind) :
    spans_empty_expression_kind (empty_expression_kind kind) = true := by
  match kind with
  | .Literal literal =>
      simpa [empty_expression_kind, spans_empty_expression_kind] using
        empty_literal_spans_empty literal
  | .Block block_expression =>
      simpa [empty_expression_kind, spans_empty_expression_kind] using
        empty_block_expression_spans_empty block_expression
  | .Prefix prefix_expression =>
      simpa [empty_expression_kind, spans_empty_expression_kind] using
        empty_prefix_expression_spans_empty prefix_expression
  | .Index index_expression =>
      simpa [empty_expression_kind, spans_empty_expression_kind] using
        empty_index_expression_spans_empty index_expression
  | .Call call_expression =>
      simpa [empty_expression_kind, spans_empty_expression_kind] using
        empty_call_expression_spans_empty call_expression
  | .MethodCall method_call_expression =>
      simpa [empty_expression_kind, spans_empty_expression_kind] using
        empty_method_call_expression_spans_empty method_call_expression
  | .Constructor constructor_expression =>
      simpa [empty_expression_kind, spans_empty_expression_kind] using
        empty_constructor_expression_spans_empty constructor_expression
  | .MemberAccess member_access_expression =>
      simpa [empty_expression_kind, spans_empty_expression_kind] using
        empty_member_access_expression_spans_empty member_access_expression
  | .Cast cast_expression =>
      simpa [empty_expression_kind, spans_empty_expression_kind] using
        empty_cast_expression_spans_empty cast_expression
  | .Infix infix_expression =>
      simpa [empty_expression_kind, spans_empty_expression_kind] using
        empty_infix_expression_spans_empty infix_expression
  | .If if_expression =>
      simpa [empty_expression_kind, spans_empty_expression_kind] using
        empty_if_expression_spans_empty if_expression
  | .Variable path =>
      simp [empty_expression_kind, spans_empty_expression_kind,
        empty_path_spans_empty]
  | .Tuple expressions =>
      simpa [empty_expression_kind, spans_empty_expression_kind] using
        empty_expressions_spans_empty expressions
  | .Lambda lambda =>
      simpa [empty_expression_kind, spans_empty_expression_kind] using
        empty_lambda_spans_empty lambda
  | .Parenthesized expression =>
      simpa [empty_expression_kind, spans_empty_expression_kind] using
        empty_expression_spans_empty expression
  | .Unquote expression =>
      simpa [empty_expression_kind, spans_empty_expression_kind] using
        empty_expression_spans_empty expression
  | .Comptime block_expression span =>
      simpa [empty_expression_kind, spans_empty_expression_kind] using
        empty_block_expression_spans_empty block_expression
  | .Quote tokens => simp [empty_expression_kind, spans_empty_expression_kind]
  | .Resolved id => simp [empty_expression_kind, spans_empty_expression_kind]
  | .Error => simp [empty_expression_kind, spans_empty_expression_kind]

theorem empty_expressions_spans_empty (expressions : List Expression) :
    spans_empty_expressions (empty_expressions expressions) = true := by
  match expressions with
  | [] => simp [empty_expressions, spans_empty_expressions]
  | expression :: rest =>
      simp [empty_expressions, spans_empty_expressions,
        empty_expression_spans_empty expression,
        empty_expressions_spans_empty rest]

theorem empty_option_expression_spans_empty (o : Option Expression) :
    spans_empty_option_expression (empty_option_expression o) = true := by
  match o with
  | none => simp [empty_option_expression, spans_empty_option_expression]
  | some expression =>
      simpa [empty_option_expression, spans_empty_option_expression] using
        empty_expression_spans_empty expression

theorem empty_literal_spans_empty (literal : Literal) :
    spans_empty_literal (empty_literal literal) = true := by
  match literal with
  | .Array array_literal =>
      simpa [empty_literal, spans_empty_literal] using
        empty_array_literal_spans_empty array_literal
  | .Slice array_literal =>
      simpa [empty_literal, spans_empty_literal] using
        empty_array_literal_spans_empty array_literal
  | .Bool value => simp [empty_literal, spans_empty_literal]
  | .Integer value negative => simp [empty_literal, spans_empty_literal]
  | .Str value => simp [empty_literal, spans_empty_literal]
  | .RawStr value hashes => simp [empty_literal, spans_empty_literal]
  | .FmtStr value => simp [empty_literal, spans_empty_literal]
  | .Unit => simp [empty_literal, spans_empty_literal]

theorem empty_array_literal_spans_empty (array_literal : ArrayLiteral) :
    spans_empty_array_literal (empty_array_literal array_literal) = true := by
  match array_literal with
  | .Standard expressions =>
      simpa [empty_array_literal, spans_empty_array_literal] using
        empty_expressions_spans_empty expressions
  | .Repeated repeated_element length =>
      simp [empty_array_literal, spans_empty_array_literal,
        empty_expression_spans_empty repeated_element,
        empty_expression_spans_empty length]

theorem empty_block_expression_spans_empty
    (block_expression : BlockExpression) :
    spans_empty_block_expression (empty_block_expression block_expression) =
      true := by
  match block_expression with
  | .mk statements =>
      simpa [empty_block_expression, spans_empty_block_expression] using
        empty_statements_spans_empty statements

theorem empty_statements_spans_empty (statements : List Statement) :
    spans_empty_statements (empty_statements statements) = true := by
  match statements with
  | [] => simp [empty_statements, spans_empty_statements]
  | statement :: rest =>
      simp [empty_statements, spans_empty_statements,
        empty_statement_spans_empty statement,
        empty_statements_spans_empty rest]

theorem empty_statement_spans_empty (statement : Statement) :
    spans_empty_statement (empty_statement statement) = true := by
  match statement with
  | .mk kind span =>
      simp [empty_statement, spans_empty_statement, span_is_empty,
        empty_statement_kind_spans_empty kind]

theorem empty_statement_kind_spans_empty (kind : StatementKind) :
    spans_empty_statement_kind (empty_statement_kind kind) = true := by
  match kind with
  | .Let let_statement =>
      simpa [empty_statement_kind, spans_empty_statement_kind] using
        empty_let_statement_spans_empty let_statement
  | .Constrain constrain_statement =>
      simpa [empty_statement_kind, spans_empty_statement_kind] using
        empty_constrain_statement_spans_empty constrain_statement
  | .Expression expression =>
      simpa [empty_statement_kind, spans_empty_statement_kind] using
        empty_expression_spans_empty expression
  | .Assign assign_statement =>
      simpa [empty_statement_kind, spans_empty_statement_kind] using
        empty_assign_statement_spans_empty assign_statement
  | .For for_loop_statement =>
      simpa [empty_statement_kind, spans_empty_statement_kind] using
        empty_for_loop_statement_spans_empty for_loop_statement
  | .Comptime statement =>
      simpa [empty_statement_kind, spans_empty_statement_kind] using
        empty_statement_spans_empty statement
  | .Semi expression =>
      simpa [empty_statement_kind, spans_empty_statement_kind] using
        empty_expression_spans_empty expression
  | .Break => simp [empty_statement_kind, spans_empty_statement_kind]
  | .Continue => simp [empty_statement_kind, spans_empty_statement_kind]
  | .Error => simp [empty_statement_kind, spans_empty_statement_kind]

theorem empty_let_statement_spans_empty (let_statement : LetStatement) :
    spans_empty_let_statement (empty_let_statement let_statement) = true := by
  match let_statement with
  | .mk pattern typ expression =>
      simp [empty_let_statement, spans_empty_let_statement,
        empty_pattern_spans_empty, empty_unresolved_type_spans_empty,
        empty_expression_spans_empty expression]

theorem empty_constrain_statement_spans_empty
    (constrain_statement : ConstrainStatement) :
    spans_empty_constrain_statement
      (empty_constrain_statement constrain_statement) = true := by
  match constrain_statement with
  | .mk expression message =>
      simp [empty_constrain_statement, spans_empty_constrain_statement,
        empty_expression_spans_empty expression,
        empty_option_expression_spans_empty message]

theorem empty_assign_statement_spans_empty
    (assign_statement : AssignStatement) :
    spans_empty_assign_statement (empty_assign_statement assign_statement) =
      true := by
  match assign_statement with
  | .mk lvalue expression =>
      simp [empty_assign_statement, spans_empty_assign_statement,
        empty_lvalue_spans_empty lvalue,
        empty_expression_spans_empty expression]

theorem empty_lvalue_spans_empty (lvalue : LValue) :
    spans_empty_lvalue (empty_lvalue lvalue) = true := by
  match lvalue with
  | .Ident ident =>
      simp [empty_lvalue, spans_empty_lvalue, empty_ident_spans_empty]
  | .MemberAccess object field_name span =>
      simp [empty_lvalue, spans_empty_lvalue, empty_ident_spans_empty,
        empty_lvalue_spans_empty object]
  | .Index array index span =>
      simp [empty_lvalue, spans_empty_lvalue, empty_lvalue_spans_empty array,
        empty_expression_spans_empty index]
  | .Dereference lvalue span =>
      simpa [empty_lvalue, spans_empty_lvalue] using
        empty_lvalue_spans_empty lvalue

theorem empty_for_loop_statement_spans_empty
    (for_loop_statement : ForLoopStatement) :
    spans_empty_for_loop_statement
      (empty_for_loop_statement for_loop_statement) = true := by
  match for_loop_statement with
  | .mk identifier range block span =>
      simp [empty_for_loop_statement, spans_empty_for_loop_statement,
        span_is_empty, empty_ident_spans_empty,
        empty_for_range_spans_empty range, empty_expression_spans_empty block]

theorem empty_for_range_spans_empty (range : ForRange) :
    spans_empty_for_range (empty_for_range range) = true := by
  match range with
  | .Range from_expression to_expression =>
      simp [empty_for_range, spans_empty_for_range,
        empty_expression_spans_empty from_expression,
        empty_expression_spans_empty to_expression]
  | .Array expression =>
      simpa [empty_for_range, spans_empty_for_range] using
        empty_expression_spans_empty expression

theorem empty_prefix_expression_spans_empty
    (prefix_expression : PrefixExpression) :
    spans_empty_prefix_expression
      (empty_prefix_expression prefix_expression) = true := by
  match prefix_expression with
  | .mk op rhs =>
      simpa [empty_prefix_expression, spans_empty_prefix_expression] using
        empty_expression_spans_empty rhs

theorem empty_index_expression_spans_empty
    (index_expression : IndexExpression) :
    spans_empty_index_expression (empty_index_expression index_expression) =
      true := by
  match index_expression with
  | .mk collection index =>
      simp [empty_index_expression, spans_empty_index_expression,
        empty_expression_spans_empty collection,
        empty_expression_spans_empty index]

theorem empty_call_expression_spans_empty (call_expression : CallExpression) :
    spans_empty_call_expression (empty_call_expression call_expression) =
      true := by
  match call_expression with
  | .mk func arguments =>
      simp [empty_call_expression, spans_empty_call_expression,
        empty_expression_spans_empty func,
        empty_expressions_spans_empty arguments]

theorem empty_method_call_expression_spans_empty
    (method_call_expression : MethodCallExpression) :
    spans_empty_method_call_expression
      (empty_method_call_expression method_call_expression) = true := by
  match method_call_expression with
  | .mk object method_name none arguments =>
      simp [empty_method_call_expression, spans_empty_method_call_expression,
        empty_expression_spans_empty object, empty_ident_spans_empty,
        empty_expressions_spans_empty arguments]
  | .mk object method_name (some generics) arguments =>
      simp [empty_method_call_expression, spans_empty_method_call_expression,
        empty_expression_spans_empty object, empty_ident_spans_empty,
        empty_unresolved_types_spans_empty generics,
        empty_expressions_spans_empty arguments]

theorem empty_constructor_expression_spans_empty
    (constructor_expression : ConstructorExpression) :
    spans_empty_constructor_expression
      (empty_constructor_expression constructor_expression) = true := by
  match constructor_expression with
  | .mk type_name fields =>
      simp [empty_constructor_expression, spans_empty_constructor_expression,
        empty_path_spans_empty, empty_constructor_fields_spans_empty fields]

theorem empty_constructor_fields_spans_empty
    (fields : List (Ident × Expression)) :
    spans_empty_constructor_fields (empty_constructor_fields fields) =
      true := by
  match fields with
  | [] => simp [empty_constructor_fields, spans_empty_constructor_fields]
  | (name, expression) :: rest =>
      simp [empty_constructor_fields, spans_empty_constructor_fields,
        empty_ident_spans_empty, empty_expression_spans_empty expression,
        empty_constructor_fields_spans_empty rest]

theorem empty_member_access_expression_spans_empty
    (member_access_expression : MemberAccessExpression) :
    spans_empty_member_access_expression
      (empty_member_access_expression member_access_expression) = true := by
  match member_access_expression with
  | .mk lhs rhs =>
      simp [empty_member_access_expression,
        spans_empty_member_access_expression,
        empty_expression_spans_empty lhs, empty_ident_spans_empty]

theorem empty_cast_expression_spans_empty (cast_expression : CastExpression) :
    spans_empty_cast_expression (empty_cast_expression cast_expression) =
      true := by
  match cast_expression with
  | .mk lhs typ =>
      simp [empty_cast_expression, spans_empty_cast_expression,
        empty_expression_spans_empty lhs, empty_unresolved_type_spans_empty]

theorem empty_infix_expression_spans_empty
    (infix_expression : InfixExpression) :
    spans_empty_infix_expression (empty_infix_expression infix_expression) =
      true := by
  match infix_expression with
  | .mk lhs op rhs =>
      simp [empty_infix_expression, spans_empty_infix_expression,
        empty_expression_spans_empty lhs, empty_expression_spans_empty rhs]

theorem empty_if_expression_spans_empty (if_expression : IfExpression) :
    spans_empty_if_expression (empty_if_expression if_expression) = true := by
  match if_expression with
  | .mk condition consequence alternative =>
      simp [empty_if_expression, spans_empty_if_expression,
        empty_expression_spans_empty condition,
        empty_expression_spans_empty consequence,
        empty_option_expression_spans_empty alternative]

theorem empty_lambda_spans_empty (lambda : Lambda) :
    spans_empty_lambda (empty_lambda lambda) = true := by
  match lambda with
  | .mk parameters return_type body =>
      simp [empty_lambda, spans_empty_lambda,
        empty_lambda_parameters_spans_empty parameters,
        empty_unresolved_type_spans_empty, empty_expression_spans_empty body]

theorem empty_lambda_parameters_spans_empty
    (parameters : List (Pattern × UnresolvedType)) :
    spans_empty_lambda_parameters (empty_lambda_parameters parameters) =
      true := by
  match parameters with
  | [] => simp [empty_lambda_parameters, spans_empty_lambda_parameters]
  | (name, typ) :: rest =>
      simp [empty_lambda_parameters, spans_empty_lambda_parameters,
        empty_pattern_spans_empty, empty_unresolved_type_spans_empty,
        empty_lambda_parameters_spans_empty rest]

end

theorem empty_noir_function_spans_empty (noir_function : NoirFunction) :
    spans_empty_noir_function (empty_noir_function noir_function) = true := by
  simp [empty_noir_function, spans_empty_noir_function, spans_empty_param,
    span_is_empty, List.all_map, Function.comp, empty_ident_spans_empty,
    empty_unresolved_generics_all_spans_empty,
    empty_unresolved_trait_constraints_all_spans_empty,
    empty_function_return_type_spans_empty,
    empty_block_expression_spans_empty, empty_pattern_spans_empty,
    empty_unresolved_type_spans_empty, empty_unresolved_generics,
    empty_unresolved_trait_constraints, empty_unresolved_generic_spans_empty,
    empty_unresolved_trait_constraint_spans_empty]

theorem empty_trait_item_spans_empty (trait_item : TraitItem) :
    spans_empty_trait_item (empty_trait_item trait_item) = true := by
  match trait_item with
  | .Function name generics parameters return_type where_clause body =>
      cases body with
      | none =>
          simp [empty_trait_item, spans_empty_trait_item,
            empty_ident_spans_empty, empty_unresolved_generics,
            empty_unresolved_generic_spans_empty, List.all_map, Function.comp,
            empty_unresolved_type_spans_empty,
            empty_function_return_type_spans_empty,
            empty_unresolved_trait_constraint_spans_empty]
      | some body =>
          simp [empty_trait_item, spans_empty_trait_item,
            empty_ident_spans_empty, empty_unresolved_generics,
            empty_unresolved_generic_spans_empty, List.all_map, Function.comp,
            empty_unresolved_type_spans_empty,
            empty_function_return_type_spans_empty,
            empty_unresolved_trait_constraint_spans_empty,
            empty_block_expression_spans_empty]
  | .Constant name typ default_value =>
      simp [empty_trait_item, spans_empty_trait_item, empty_ident_spans_empty,
        empty_unresolved_type_spans_empty,
        empty_option_expression_spans_empty]
  | .«Type» name =>
      simp [empty_trait_item, spans_empty_trait_item, empty_ident_spans_empty]

theorem empty_trait_impl_item_spans_empty (trait_impl_item : TraitImplItem) :
    spans_empty_trait_impl_item (empty_trait_impl_item trait_impl_item) =
      true := by
  match trait_impl_item with
  | .Function noir_function =>
      simpa [empty_trait_impl_item, spans_empty_trait_impl_item] using
        empty_noir_function_spans_empty noir_function
  | .Constant name typ default_value =>
      simp [empty_trait_impl_item, spans_empty_trait_impl_item,
        empty_ident_spans_empty, empty_unresolved_type_spans_empty,
        empty_expression_spans_empty]
  | .«Type» name alias_typ =>
      simp [empty_trait_impl_item, spans_empty_trait_impl_item,
        empty_ident_spans_empty, empty_unresolved_type_spans_empty]

theorem empty_noir_trait_spans_empty (noir_trait : NoirTrait) :
    spans_empty_noir_trait (empty_noir_trait noir_trait) = true := by
  simp [empty_noir_trait, spans_empty_noir_trait, span_is_empty,
    empty_ident_spans_empty, empty_unresolved_generics_all_spans_empty,
    empty_unresolved_trait_constraints_all_spans_empty, List.all_map,
    Function.comp, empty_trait_item_spans_empty]

theorem empty_noir_trait_impl_spans_empty (noir_trait_impl : NoirTraitImpl) :
    spans_empty_noir_trait_impl (empty_noir_trait_impl noir_trait_impl) =
      true := by
  simp [empty_noir_trait_impl, spans_empty_noir_trait_impl,
    empty_path_spans_empty, empty_unresolved_generics_all_spans_empty,
    empty_unresolved_type_spans_empty,
    empty_unresolved_trait_constraints_all_spans_empty, List.all_map,
    Function.comp, empty_trait_impl_item_spans_empty]

theorem empty_type_impl_spans_empty (type_impl : TypeImpl) :
    spans_empty_type_impl (empty_type_impl type_impl) = true := by
  simp [empty_type_impl, spans_empty_type_impl, span_is_empty,
    empty_unresolved_type_spans_empty,
    empty_unresolved_generics_all_spans_empty,
    empty_unresolved_trait_constraints_all_spans_empty, List.all_map,
    Function.comp, empty_noir_function_spans_empty]

theorem empty_noir_struct_spans_empty (noir_struct : NoirStruct) :
    spans_empty_noir_struct (empty_noir_struct noir_struct) = true := by
  simp [empty_noir_struct, spans_empty_noir_struct, span_is_empty,
    empty_ident_spans_empty, List.all_map, Function.comp,
    empty_unresolved_type_spans_empty,
    empty_unresolved_generics_all_spans_empty]

theorem empty_noir_type_alias_spans_empty (noir_type_alias : NoirTypeAlias) :
    spans_empty_noir_type_alias (empty_noir_type_alias noir_type_alias) =
      true := by
  simp [empty_noir_type_alias, spans_empty_noir_type_alias, span_is_empty,
    empty_ident_spans_empty, empty_unresolved_type_spans_empty]

theorem empty_module_declaration_spans_empty
    (module_declaration : ModuleDeclaration) :
    spans_empty_module_declaration
      (empty_module_declaration module_declaration) = true := by
  simp [empty_module_declaration, spans_empty_module_declaration,
    empty_ident_spans_empty]

mutual

theorem empty_use_tree_spans_empty (use_tree : UseTree) :
    spans_empty_use_tree (empty_use_tree use_tree) = true := by
  match use_tree with
  | .mk prefix_path kind =>
      simp [empty_use_tree, spans_empty_use_tree, empty_path_spans_empty,
        empty_use_tree_kind_spans_empty kind]

theorem empty_use_tree_kind_spans_empty (kind : UseTreeKind) :
    spans_empty_use_tree_kind (empty_use_tree_kind kind) = true := by
  match kind with
  | .Path name none =>
      simp [empty_use_tree_kind, spans_empty_use_tree_kind,
        empty_ident_spans_empty]
  | .Path name (some alias_name) =>
      simp [empty_use_tree_kind, spans_empty_use_tree_kind,
        empty_ident_spans_empty]
  | .List use_trees =>
      simpa [empty_use_tree_kind, spans_empty_use_tree_kind] using
        empty_use_trees_spans_empty use_trees

theorem empty_use_trees_spans_empty (use_trees : List UseTree) :
    spans_empty_use_trees (empty_use_trees use_trees) = true := by
  match use_trees with
  | [] => simp [empty_use_trees, spans_empty_use_trees]
  | use_tree :: rest =>
      simp [empty_use_trees, spans_empty_use_trees,
        empty_use_tree_spans_empty use_tree,
        empty_use_trees_spans_empty rest]

end

mutual

theorem empty_parsed_module_spans_empty (parsed_module : ParsedModule) :
    spans_empty_parsed_module (empty_parsed_module parsed_module) = true := by
  match parsed_module with
  | .mk items =>
      simpa [empty_parsed_module, spans_empty_parsed_module] using
        empty_items_spans_empty items

theorem empty_items_spans_empty (items : List Item) :
    spans_empty_items (empty_items items) = true := by
  match items with
  | [] => simp [empty_items, spans_empty_items]
  | item :: rest =>
      simp [empty_items, spans_empty_items, empty_item_spans_empty item,
        empty_items_spans_empty rest]

theorem empty_item_spans_empty (item : Item) :
    spans_empty_item (empty_item item) = true := by
  match item with
  | .mk kind span =>
      simp [empty_item, spans_empty_item, span_is_empty,
        empty_item_kind_spans_empty kind]

theorem empty_item_kind_spans_empty (kind : ItemKind) :
    spans_empty_item_kind (empty_item_kind kind) = true := by
  match kind with
  | .Function noir_function =>
      simpa [empty_item_kind, spans_empty_item_kind] using
        empty_noir_function_spans_empty noir_function
  | .Trait noir_trait =>
      simpa [empty_item_kind, spans_empty_item_kind] using
        empty_noir_trait_spans_empty noir_trait
  | .TraitImpl noir_trait_impl =>
      simpa [empty_item_kind, spans_empty_item_kind] using
        empty_noir_trait_impl_spans_empty noir_trait_impl
  | .Impl type_impl =>
      simpa [empty_item_kind, spans_empty_item_kind] using
        empty_type_impl_spans_empty type_impl
  | .Global let_statement =>
      simpa [empty_item_kind, spans_empty_item_kind] using
        empty_let_statement_spans_empty let_statement
  | .Submodules parsed_submodule =>
      simpa [empty_item_kind, spans_empty_item_kind] using
        empty_parsed_submodule_spans_empty parsed_submodule
  | .ModuleDecl module_declaration =>
      simpa [empty_item_kind, spans_empty_item_kind] using
        empty_module_declaration_spans_empty module_declaration
  | .Import use_tree =>
      simpa [empty_item_kind, spans_empty_item_kind] using
        empty_use_tree_spans_empty use_tree
  | .Struct noir_struct =>
      simpa [empty_item_kind, spans_empty_item_kind] using
        empty_noir_struct_spans_empty noir_struct
  | .TypeAlias noir_type_alias =>
      simpa [empty_item_kind, spans_empty_item_kind] using
        empty_noir_type_alias_spans_empty noir_type_alias

theorem empty_parsed_submodule_spans_empty
    (parsed_submodule : ParsedSubModule) :
    spans_empty_parsed_submodule (empty_parsed_submodule parsed_submodule) =
      true := by
  match parsed_submodule with
  | .mk name contents =>
      simp [empty_parsed_submodule, spans_empty_parsed_submodule,
        empty_ident_spans_empty, empty_parsed_module_spans_empty contents]

end

/-!
Frame lemmas: sanitization commutes with positional erasure — the sanitized
tree and the original tree have the same `strip_*` image, so they agree on
everything except positional data.
-/

theorem strip_empty_ident (ident : Ident) :
    strip_ident (empty_ident ident) = strip_ident ident := by
  simp [strip_ident, empty_ident]

theorem strip_empty_path_segment (segment : PathSegment) :
    strip_path_segment (empty_path_segment segment) =
      strip_path_segment segment := by
  simp [strip_path_segment, empty_path_segment, strip_empty_ident]

theorem strip_empty_path (path : Path) :
    strip_path (empty_path path) = strip_path path := by
  simp [strip_path, empty_path, List.map_map, Function.comp,
    strip_empty_path_segment]

mutual

theorem strip_empty_pattern (pattern : Pattern) :
    strip_pattern (empty_pattern pattern) = strip_pattern pattern := by
  match pattern with
  | .Identifier ident =>
      simp [empty_pattern, strip_pattern, strip_empty_ident]
  | .Mutable pattern span is_synthesized =>
      simp [empty_pattern, strip_pattern, strip_empty_pattern pattern]
  | .Tuple patterns span =>
      simp [empty_pattern, strip_pattern, strip_empty_patterns patterns]
  | .Struct path fields span =>
      simp [empty_pattern, strip_pattern, strip_empty_path,
        strip_empty_pattern_fields fields]

theorem strip_empty_patterns (patterns : List Pattern) :
    strip_patterns (empty_patterns patterns) = strip_patterns patterns := by
  match patterns with
  | [] => simp [empty_patterns, strip_patterns]
  | pattern :: rest =>
      simp [empty_patterns, strip_patterns, strip_empty_pattern pattern,
        strip_empty_patterns rest]

theorem strip_empty_pattern_fields (fields : List (Ident × Pattern)) :
    strip_pattern_fields (empty_pattern_fields fields) =
      strip_pattern_fields fields := by
  match fields with
  | [] => simp [empty_pattern_fields, strip_pattern_fields]
  | (name, pattern) :: rest =>
      simp [empty_pattern_fields, strip_pattern_fields, strip_empty_ident,
        strip_empty_pattern pattern, strip_empty_pattern_fields rest]

end

theorem strip_empty_unresolved_type_expression (e : UnresolvedTypeExpression) :
    strip_unresolved_type_expression (empty_unresolved_type_expression e) =
      strip_unresolved_type_expression e := by
  match e with
  | .Variable path =>
      simp [empty_unresolved_type_expression, strip_unresolved_type_expression,
        strip_empty_path]
  | .BinaryOperation lhs op rhs extra =>
      simp [empty_unresolved_type_expression, strip_unresolved_type_expression,
        strip_empty_unresolved_type_expression lhs,
        strip_empty_unresolved_type_expression rhs]
  | .Constant value extra =>
      simp [empty_unresolved_type_expression, strip_unresolved_type_expression]

mutual

theorem strip_empty_unresolved_type (typ : UnresolvedType) :
    strip_unresolved_type (empty_unresolved_type typ) =
      strip_unresolved_type typ := by
  match typ with
  | .mk typ span =>
      simp [empty_unresolved_type, strip_unresolved_type,
        strip_empty_unresolved_type_data typ]

theorem strip_empty_unresolved_type_data (data : UnresolvedTypeData) :
    strip_unresolved_type_data (empty_unresolved_type_data data) =
      strip_unresolved_type_data data := by
  match data with
  | .Array size element =>
      simp [empty_unresolved_type_data, strip_unresolved_type_data,
        strip_empty_unresolved_type_expression,
        strip_empty_unresolved_type element]
  | .Slice element =>
      simp [empty_unresolved_type_data, strip_unresolved_type_data,
        strip_empty_unresolved_type element]
  | .Expression expr =>
      simp [empty_unresolved_type_data, strip_unresolved_type_data,
        strip_empty_unresolved_type_expression]
  | .FormatString size element =>
      simp [empty_unresolved_type_data, strip_unresolved_type_data,
        strip_empty_unresolved_type_expression,
        strip_empty_unresolved_type element]
  | .Parenthesized inner =>
      simp [empty_unresolved_type_data, strip_unresolved_type_data,
        strip_empty_unresolved_type inner]
  | .Named path generics extra =>
      simp [empty_unresolved_type_data, strip_unresolved_type_data,
        strip_empty_path, strip_empty_unresolved_types generics]
  | .TraitAsType path generics =>
      simp [empty_unresolved_type_data, strip_unresolved_type_data,
        strip_empty_path, strip_empty_unresolved_types generics]
  | .MutableReference inner =>
      simp [empty_unresolved_type_data, strip_unresolved_type_data,
        strip_empty_unresolved_type inner]
  | .Tuple elements =>
      simp [empty_unresolved_type_data, strip_unresolved_type_data,
        strip_empty_unresolved_types elements]
  | .Function args ret extra =>
      simp [empty_unresolved_type_data, strip_unresolved_type_data,
        strip_empty_unresolved_types args, strip_empty_unresolved_type ret]
  | .FieldElement =>
      simp [empty_unresolved_type_data, strip_unresolved_type_data]
  | .Integer signed bits =>
      simp [empty_unresolved_type_data, strip_unresolved_type_data]
  | .Bool => simp [empty_unresolved_type_data, strip_unresolved_type_data]
  | .String size =>
      simp [empty_unresolved_type_data, strip_unresolved_type_data]
  | .Unit => simp [empty_unresolved_type_data, strip_unresolved_type_data]
  | .Quoted tag =>
      simp [empty_unresolved_type_data, strip_unresolved_type_data]
  | .Resolved id =>
      simp [empty_unresolved_type_data, strip_unresolved_type_data]
  | .Unspecified =>
      simp [empty_unresolved_type_data, strip_unresolved_type_data]
  | .Error => simp [empty_unresolved_type_data, strip_unresolved_type_data]

theorem strip_empty_unresolved_types (typs : List UnresolvedType) :
    strip_unresolved_types (empty_unresolved_types typs) =
      strip_unresolved_types typs := by
  match typs with
  | [] => simp [empty_unresolved_types, strip_unresolved_types]
  | typ :: rest =>
      simp [empty_unresolved_types, strip_unresolved_types,
        strip_empty_unresolved_type typ, strip_empty_unresolved_types rest]

end

theorem strip_empty_unresolved_generic (generic : UnresolvedGeneric) :
    strip_unresolved_generic (empty_unresolved_generic generic) =
      strip_unresolved_generic generic := by
  match generic with
  | .Variable ident =>
      simp [empty_unresolved_generic, strip_unresolved_generic,
        strip_empty_ident]
  | .Numeric ident typ =>
      simp [empty_unresolved_generic, strip_unresolved_generic,
        strip_empty_ident, strip_empty_unresolved_type]

theorem strip_empty_unresolved_generics (generics : List UnresolvedGeneric) :
    (empty_unresolved_generics generics).map strip_unresolved_generic =
      generics.map strip_unresolved_generic := by
  simp [empty_unresolved_generics, List.map_map, Function.comp,
    strip_empty_unresolved_generic]

theorem strip_empty_unresolved_trait_constraint
    (c : UnresolvedTraitConstraint) :
    strip_unresolved_trait_constraint (empty_unresolved_trait_constraint c) =
      strip_unresolved_trait_constraint c := by
  simp [empty_unresolved_trait_constraint, strip_unresolved_trait_constraint,
    strip_empty_unresolved_type]

theorem strip_empty_unresolved_trait_constraints
    (cs : List UnresolvedTraitConstraint) :
    (empty_unresolved_trait_constraints cs).map
        strip_unresolved_trait_constraint =
      cs.map strip_unresolved_trait_constraint := by
  simp [empty_unresolved_trait_constraints, List.map_map, Function.comp,
    strip_empty_unresolved_trait_constraint]

theorem strip_empty_function_return_type (rt : FunctionReturnType) :
    strip_function_return_type (empty_function_return_type rt) =
      strip_function_return_type rt := by
  match rt with
  | .Ty typ =>
      simp [empty_function_return_type, strip_function_return_type,
        strip_empty_unresolved_type]
  | .Default extra =>
      simp [empty_function_return_type, strip_function_return_type]

mutual

theorem strip_empty_expression (expression : Expression) :
    strip_expression (empty_expression expression) =
      strip_expression expression := by
  match expression with
  | .mk kind span =>
      simp [empty_expression, strip_expression,
        strip_empty_expression_kind kind]

theorem strip_empty_expression_kind (kind : ExpressionKind) :
    strip_expression_kind (empty_expression_kind kind) =
      strip_expression_kind kind := by
  match kind with
  | .Literal literal =>
      simp [empty_expression_kind, strip_expression_kind,
        strip_empty_literal literal]
  | .Block block_expression =>
      simp [empty_expression_kind, strip_expression_kind,
        strip_empty_block_expression block_expression]
  | .Prefix prefix_expression =>
      simp [empty_expression_kind, strip_expression_kind,
        strip_empty_prefix_expression prefix_expression]
  | .Index index_expression =>
      simp [empty_expression_kind, strip_expression_kind,
        strip_empty_index_expression index_expression]
  | .Call call_expression =>
      simp [empty_expression_kind, strip_expression_kind,
        strip_empty_call_expression call_expression]
  | .MethodCall method_call_expression =>
      simp [empty_expression_kind, strip_expression_kind,
        strip_empty_method_call_expression method_call_expression]
  | .Constructor constructor_expression =>
      simp [empty_expression_kind, strip_expression_kind,
        strip_empty_constructor_expression constructor_expression]
  | .MemberAccess member_access_expression =>
      simp [empty_expression_kind, strip_expression_kind,
        strip_empty_member_access_expression member_access_expression]
  | .Cast cast_expression =>
      simp [empty_expression_kind, strip_expression_kind,
        strip_empty_cast_expression cast_expression]
  | .Infix infix_expression =>
      simp [empty_expression_kind, strip_expression_kind,
        strip_empty_infix_expression infix_expression]
  | .If if_expression =>
      simp [empty_expression_kind, strip_expression_kind,
        strip_empty_if_expression if_expression]
  | .Variable path =>
      simp [empty_expression_kind, strip_expression_kind, strip_empty_path]
  | .Tuple expressions =>
      simp [empty_expression_kind, strip_expression_kind,
        strip_empty_expressions expressions]
  | .Lambda lambda =>
      simp [empty_expression_kind, strip_expression_kind,
        strip_empty_lambda lambda]
  | .Parenthesized expression =>
      simp [empty_expression_kind, strip_expression_kind,
        strip_empty_expression expression]
  | .Unquote expression =>
      simp [empty_expression_kind, strip_expression_kind,
        strip_empty_expression expression]
  | .Comptime block_expression span =>
      simp [empty_expression_kind, strip_expression_kind,
        strip_empty_block_expression block_expression]
  | .Quote tokens => simp [empty_expression_kind, strip_expression_kind]
  | .Resolved id => simp [empty_expression_kind, strip_expression_kind]
  | .Error => simp [empty_expression_kind, strip_expression_kind]

theorem strip_empty_expressions (expressions : List Expression) :
    strip_expressions (empty_expressions expressions) =
      strip_expressions expressions := by
  match expressions with
  | [] => simp [empty_expressions, strip_expressions]
  | expression :: rest =>
      simp [empty_expressions, strip_expressions,
        strip_empty_expression expression, strip_empty_expressions rest]

theorem strip_empty_option_expression (o : Option Expression) :
    strip_option_expression (empty_option_expression o) =
      strip_option_expression o := by
  match o with
  | none => simp [empty_option_expression, strip_option_expression]
  | some expression =>
      simp [empty_option_expression, strip_option_expression,
        strip_empty_expression expression]

theorem strip_empty_literal (literal : Literal) :
    strip_literal (empty_literal literal) = strip_literal literal := by
  match literal with
  | .Array array_literal =>
      simp [empty_literal, strip_literal,
        strip_empty_array_literal array_literal]
  | .Slice array_literal =>
      simp [empty_literal, strip_literal,
        strip_empty_array_literal array_literal]
  | .Bool value => simp [empty_literal, strip_literal]
  | .Integer value negative => simp [empty_literal, strip_literal]
  | .Str value => simp [empty_literal, strip_literal]
  | .RawStr value hashes => simp [empty_literal, strip_literal]
  | .FmtStr value => simp [empty_literal, strip_literal]
  | .Unit => simp [empty_literal, strip_literal]

theorem strip_empty_array_literal (array_literal : ArrayLiteral) :
    strip_array_literal (empty_array_literal array_literal) =
      strip_array_literal array_literal := by
  match array_literal with
  | .Standard expressions =>
      simp [empty_array_literal, strip_array_literal,
        strip_empty_expressions expressions]
  | .Repeated repeated_element length =>
      simp [empty_array_literal, strip_array_literal,
        strip_empty_expression repeated_element,
        strip_empty_expression length]

theorem strip_empty_block_expression (block_expression : BlockExpression) :
    strip_block_expression (empty_block_expression block_expression) =
      strip_block_expression block_expression := by
  match block_expression with
  | .mk statements =>
      simp [empty_block_expression, strip_block_expression,
        strip_empty_statements statements]

theorem strip_empty_statements (statements : List Statement) :
    strip_statements (empty_statements statements) =
      strip_statements statements := by
  match statements with
  | [] => simp [empty_statements, strip_statements]
  | statement :: rest =>
      simp [empty_statements, strip_statements,
        strip_empty_statement statement, strip_empty_statements rest]

theorem strip_empty_statement (statement : Statement) :
    strip_statement (empty_statement statement) =
      strip_statement statement := by
  match statement with
  | .mk kind span =>
      simp [empty_statement, strip_statement,
        strip_empty_statement_kind kind]

theorem strip_empty_statement_kind (kind : StatementKind) :
    strip_statement_kind (empty_statement_kind kind) =
      strip_statement_kind kind := by
  match kind with
  | .Let let_statement =>
      simp [empty_statement_kind, strip_statement_kind,
        strip_empty_let_statement let_statement]
  | .Constrain constrain_statement =>
      simp [empty_statement_kind, strip_statement_kind,
        strip_empty_constrain_statement constrain_statement]
  | .Expression expression =>
      simp [empty_statement_kind, strip_statement_kind,
        strip_empty_expression expression]
  | .Assign assign_statement =>
      simp [empty_statement_kind, strip_statement_kind,
        strip_empty_assign_statement assign_statement]
  | .For for_loop_statement =>
      simp [empty_statement_kind, strip_statement_kind,
        strip_empty_for_loop_statement for_loop_statement]
  | .Comptime statement =>
      simp [empty_statement_kind, strip_statement_kind,
        strip_empty_statement statement]
  | .Semi expression =>
      simp [empty_statement_kind, strip_statement_kind,
        strip_empty_expression expression]
  | .Break => simp [empty_statement_kind, strip_statement_kind]
  | .Continue => simp [empty_statement_kind, strip_statement_kind]
  | .Error => simp [empty_statement_kind, strip_statement_kind]

theorem strip_empty_let_statement (let_statement : LetStatement) :
    strip_let_statement (empty_let_statement let_statement) =
      strip_let_statement let_statement := by
  match let_statement with
  | .mk pattern typ expression =>
      simp [empty_let_statement, strip_let_statement, strip_empty_pattern,
        strip_empty_unresolved_type, strip_empty_expression expression]

theorem strip_empty_constrain_statement
    (constrain_statement : ConstrainStatement) :
    strip_constrain_statement (empty_constrain_statement constrain_statement) =
      strip_constrain_statement constrain_statement := by
  match constrain_statement with
  | .mk expression message =>
      simp [empty_constrain_statement, strip_constrain_statement,
        strip_empty_expression expression,
        strip_empty_option_expression message]

theorem strip_empty_assign_statement (assign_statement : AssignStatement) :
    strip_assign_statement (empty_assign_statement assign_statement) =
      strip_assign_statement assign_statement := by
  match assign_statement with
  | .mk lvalue expression =>
      simp [empty_assign_statement, strip_assign_statement,
        strip_empty_lvalue lvalue, strip_empty_expression expression]

theorem strip_empty_lvalue (lvalue : LValue) :
    strip_lvalue (empty_lvalue lvalue) = strip_lvalue lvalue := by
  match lvalue with
  | .Ident ident => simp [empty_lvalue, strip_lvalue, strip_empty_ident]
  | .MemberAccess object field_name span =>
      simp [empty_lvalue, strip_lvalue, strip_empty_ident,
        strip_empty_lvalue object]
  | .Index array index span =>
      simp [empty_lvalue, strip_lvalue, strip_empty_lvalue array,
        strip_empty_expression index]
  | .Dereference lvalue span =>
      simp [empty_lvalue, strip_lvalue, strip_empty_lvalue lvalue]

theorem strip_empty_for_loop_statement
    (for_loop_statement : ForLoopStatement) :
    strip_for_loop_statement (empty_for_loop_statement for_loop_statement) =
      strip_for_loop_statement for_loop_statement := by
  match for_loop_statement with
  | .mk identifier range block span =>
      simp [empty_for_loop_statement, strip_for_loop_statement,
        strip_empty_ident, strip_empty_for_range range,
        strip_empty_expression block]

theorem strip_empty_for_range (range : ForRange) :
    strip_for_range (empty_for_range range) = strip_for_range range := by
  match range with
  | .Range from_expression to_expression =>
      simp [empty_for_range, strip_for_range,
        strip_empty_expression from_expression,
        strip_empty_expression to_expression]
  | .Array expression =>
      simp [empty_for_range, strip_for_range,
        strip_empty_expression expression]

theorem strip_empty_prefix_expression (prefix_expression : PrefixExpression) :
    strip_prefix_expression (empty_prefix_expression prefix_expression) =
      strip_prefix_expression prefix_expression := by
  match prefix_expression with
  | .mk op rhs =>
      simp [empty_prefix_expression, strip_prefix_expression,
        strip_empty_expression rhs]

theorem strip_empty_index_expression (index_expression : IndexExpression) :
    strip_index_expression (empty_index_expression index_expression) =
      strip_index_expression index_expression := by
  match index_expression with
  | .mk collection index =>
      simp [empty_index_expression, strip_index_expression,
        strip_empty_expression collection, strip_empty_expression index]

theorem strip_empty_call_expression (call_expression : CallExpression) :
    strip_call_expression (empty_call_expression call_expression) =
      strip_call_expression call_expression := by
  match call_expression with
  | .mk func arguments =>
      simp [empty_call_expression, strip_call_expression,
        strip_empty_expression func, strip_empty_expressions arguments]

theorem strip_empty_method_call_expression
    (method_call_expression : MethodCallExpression) :
    strip_method_call_expression
        (empty_method_call_expression method_call_expression) =
      strip_method_call_expression method_call_expression := by
  match method_call_expression with
  | .mk object method_name none arguments =>
      simp [empty_method_call_expression, strip_method_call_expression,
        strip_empty_expression object, strip_empty_ident,
        strip_empty_expressions arguments]
  | .mk object method_name (some generics) arguments =>
      simp [empty_method_call_expression, strip_method_call_expression,
        strip_empty_expression object, strip_empty_ident,
        strip_empty_unresolved_types generics,
        strip_empty_expressions arguments]

theorem strip_empty_constructor_expression
    (constructor_expression : ConstructorExpression) :
    strip_constructor_expression
        (empty_constructor_expression constructor_expression) =
      strip_constructor_expression constructor_expression := by
  match constructor_expression with
  | .mk type_name fields =>
      simp [empty_constructor_expression, strip_constructor_expression,
        strip_empty_path, strip_empty_constructor_fields fields]

theorem strip_empty_constructor_fields (fields : List (Ident × Expression)) :
    strip_constructor_fields (empty_constructor_fields fields) =
      strip_constructor_fields fields := by
  match fields with
  | [] => simp [empty_constructor_fields, strip_constructor_fields]
  | (name, expression) :: rest =>
      simp [empty_constructor_fields, strip_constructor_fields,
        strip_empty_ident, strip_empty_expression expression,
        strip_empty_constructor_fields rest]

theorem strip_empty_member_access_expression
    (member_access_expression : MemberAccessExpression) :
    strip_member_access_expression
        (empty_member_access_expression member_access_expression) =
      strip_member_access_expression member_access_expression := by
  match member_access_expression with
  | .mk lhs rhs =>
      simp [empty_member_access_expression, strip_member_access_expression,
        strip_empty_expression lhs, strip_empty_ident]

theorem strip_empty_cast_expression (cast_expression : CastExpression) :
    strip_cast_expression (empty_cast_expression cast_expression) =
      strip_cast_expression cast_expression := by
  match cast_expression with
  | .mk lhs typ =>
      simp [empty_cast_expression, strip_cast_expression,
        strip_empty_expression lhs, strip_empty_unresolved_type]

theorem strip_empty_infix_expression (infix_expression : InfixExpression) :
    strip_infix_expression (empty_infix_expression infix_expression) =
      strip_infix_expression infix_expression := by
  match infix_expression with
  | .mk lhs op rhs =>
      simp [empty_infix_expression, strip_infix_expression,
        strip_empty_expression lhs, strip_empty_expression rhs]

theorem strip_empty_if_expression (if_expression : IfExpression) :
    strip_if_expression (empty_if_expression if_expression) =
      strip_if_expression if_expression := by
  match if_expression with
  | .mk condition consequence alternative =>
      simp [empty_if_expression, strip_if_expression,
        strip_empty_expression condition,
        strip_empty_expression consequence,
        strip_empty_option_expression alternative]

theorem strip_empty_lambda (lambda : Lambda) :
    strip_lambda (empty_lambda lambda) = strip_lambda lambda := by
  match lambda with
  | .mk parameters return_type body =>
      simp [empty_lambda, strip_lambda,
        strip_empty_lambda_parameters parameters,
        strip_empty_unresolved_type, strip_empty_expression body]

theorem strip_empty_lambda_parameters
    (parameters : List (Pattern × UnresolvedType)) :
    strip_lambda_parameters (empty_lambda_parameters parameters) =
      strip_lambda_parameters parameters := by
  match parameters with
  | [] => simp [empty_lambda_parameters, strip_lambda_parameters]
  | (name, typ) :: rest =>
      simp [empty_lambda_parameters, strip_lambda_parameters,
        strip_empty_pattern, strip_empty_unresolved_type,
        strip_empty_lambda_parameters rest]

end

theorem strip_empty_noir_function (noir_function : NoirFunction) :
    strip_noir_function (empty_noir_function noir_function) =
      strip_noir_function noir_function := by
  simp [strip_noir_function, empty_noir_function, List.map_map, Function.comp,
    strip_empty_ident, strip_empty_unresolved_generics,
    strip_empty_unresolved_trait_constraints,
    strip_empty_function_return_type, strip_empty_block_expression,
    strip_empty_pattern, strip_empty_unresolved_type,
    empty_unresolved_generics, empty_unresolved_trait_constraints,
    strip_empty_unresolved_generic, strip_empty_unresolved_trait_constraint]

theorem strip_empty_trait_item (trait_item : TraitItem) :
    strip_trait_item (empty_trait_item trait_item) =
      strip_trait_item trait_item := by
  match trait_item with
  | .Function name generics parameters return_type where_clause body =>
      cases body with
      | none =>
          simp [empty_trait_item, strip_trait_item, strip_empty_ident,
            empty_unresolved_generics, List.map_map, Function.comp,
            strip_empty_unresolved_generic, strip_empty_unresolved_type,
            strip_empty_function_return_type,
            strip_empty_unresolved_trait_constraint]
      | some body =>
          simp [empty_trait_item, strip_trait_item, strip_empty_ident,
            empty_unresolved_generics, List.map_map, Function.comp,
            strip_empty_unresolved_generic, strip_empty_unresolved_type,
            strip_empty_function_return_type,
            strip_empty_unresolved_trait_constraint,
            strip_empty_block_expression]
  | .Constant name typ default_value =>
      simp [empty_trait_item, strip_trait_item, strip_empty_ident,
        strip_empty_unresolved_type, strip_empty_option_expression]
  | .«Type» name =>
      simp [empty_trait_item, strip_trait_item, strip_empty_ident]

theorem strip_empty_trait_impl_item (trait_impl_item : TraitImplItem) :
    strip_trait_impl_item (empty_trait_impl_item trait_impl_item) =
      strip_trait_impl_item trait_impl_item := by
  match trait_impl_item with
  | .Function noir_function =>
      simp [empty_trait_impl_item, strip_trait_impl_item,
        strip_empty_noir_function]
  | .Constant name typ default_value =>
      simp [empty_trait_impl_item, strip_trait_impl_item, strip_empty_ident,
        strip_empty_unresolved_type, strip_empty_expression]
  | .«Type» name alias_typ =>
      simp [empty_trait_impl_item, strip_trait_impl_item, strip_empty_ident,
        strip_empty_unresolved_type]

theorem strip_empty_noir_trait (noir_trait : NoirTrait) :
    strip_noir_trait (empty_noir_trait noir_trait) =
      strip_noir_trait noir_trait := by
  simp [strip_noir_trait, empty_noir_trait, strip_empty_ident,
    strip_empty_unresolved_generics, strip_empty_unresolved_trait_constraints,
    List.map_map, Function.comp, strip_empty_trait_item]

theorem strip_empty_noir_trait_impl (noir_trait_impl : NoirTraitImpl) :
    strip_noir_trait_impl (empty_noir_trait_impl noir_trait_impl) =
      strip_noir_trait_impl noir_trait_impl := by
  simp [strip_noir_trait_impl, empty_noir_trait_impl, strip_empty_path,
    strip_empty_unresolved_generics, strip_empty_unresolved_type,
    strip_empty_unresolved_trait_constraints, List.map_map, Function.comp,
    strip_empty_trait_impl_item]

theorem strip_empty_type_impl (type_impl : TypeImpl) :
    strip_type_impl (empty_type_impl type_impl) = strip_type_impl type_impl := by
  simp [strip_type_impl, empty_type_impl, strip_empty_unresolved_type,
    strip_empty_unresolved_generics, strip_empty_unresolved_trait_constraints,
    List.map_map, Function.comp, strip_empty_noir_function]

theorem strip_empty_noir_struct (noir_struct : NoirStruct) :
    strip_noir_struct (empty_noir_struct noir_struct) =
      strip_noir_struct noir_struct := by
  simp [strip_noir_struct, empty_noir_struct, strip_empty_ident, List.map_map,
    Function.comp, strip_empty_unresolved_type,
    strip_empty_unresolved_generics]

theorem strip_empty_noir_type_alias (noir_type_alias : NoirTypeAlias) :
    strip_noir_type_alias (empty_noir_type_alias noir_type_alias) =
      strip_noir_type_alias noir_type_alias := by
  simp [strip_noir_type_alias, empty_noir_type_alias, strip_empty_ident,
    strip_empty_unresolved_type]

theorem strip_empty_module_declaration
    (module_declaration : ModuleDeclaration) :
    strip_module_declaration (empty_module_declaration module_declaration) =
      strip_module_declaration module_declaration := by
  simp [strip_module_declaration, empty_module_declaration, strip_empty_ident]

mutual

theorem strip_empty_use_tree (use_tree : UseTree) :
    strip_use_tree (empty_use_tree use_tree) = strip_use_tree use_tree := by
  match use_tree with
  | .mk prefix_path kind =>
      simp [empty_use_tree, strip_use_tree, strip_empty_path,
        strip_empty_use_tree_kind kind]

theorem strip_empty_use_tree_kind (kind : UseTreeKind) :
    strip_use_tree_kind (empty_use_tree_kind kind) =
      strip_use_tree_kind kind := by
  match kind with
  | .Path name none =>
      simp [empty_use_tree_kind, strip_use_tree_kind, strip_empty_ident]
  | .Path name (some alias_name) =>
      simp [empty_use_tree_kind, strip_use_tree_kind, strip_empty_ident]
  | .List use_trees =>
      simp [empty_use_tree_kind, strip_use_tree_kind,
        strip_empty_use_trees use_trees]

theorem strip_empty_use_trees (use_trees : List UseTree) :
    strip_use_trees (empty_use_trees use_trees) =
      strip_use_trees use_trees := by
  match use_trees with
  | [] => simp [empty_use_trees, strip_use_trees]
  | use_tree :: rest =>
      simp [empty_use_trees, strip_use_trees, strip_empty_use_tree use_tree,
        strip_empty_use_trees rest]

end

mutual

theorem strip_empty_parsed_module (parsed_module : ParsedModule) :
    strip_parsed_module (empty_parsed_module parsed_module) =
      strip_parsed_module parsed_module := by
  match parsed_module with
  | .mk items =>
      simp [empty_parsed_module, strip_parsed_module,
        strip_empty_items items]

theorem strip_empty_items (items : List Item) :
    strip_items (empty_items items) = strip_items items := by
  match items with
  | [] => simp [empty_items, strip_items]
  | item :: rest =>
      simp [empty_items, strip_items, strip_empty_item item,
        strip_empty_items rest]

theorem strip_empty_item (item : Item) :
    strip_item (empty_item item) = strip_item item := by
  match item with
  | .mk kind span =>
      simp [empty_item, strip_item, strip_empty_item_kind kind]

theorem strip_empty_item_kind (kind : ItemKind) :
    strip_item_kind (empty_item_kind kind) = strip_item_kind kind := by
  match kind with
  | .Function noir_function =>
      simp [empty_item_kind, strip_item_kind, strip_empty_noir_function]
  | .Trait noir_trait =>
      simp [empty_item_kind, strip_item_kind, strip_empty_noir_trait]
  | .TraitImpl noir_trait_impl =>
      simp [empty_item_kind, strip_item_kind, strip_empty_noir_trait_impl]
  | .Impl type_impl =>
      simp [empty_item_kind, strip_item_kind, strip_empty_type_impl]
  | .Global let_statement =>
      simp [empty_item_kind, strip_item_kind, strip_empty_let_statement]
  | .Submodules parsed_submodule =>
      simp [empty_item_kind, strip_item_kind,
        strip_empty_parsed_submodule parsed_submodule]
  | .ModuleDecl module_declaration =>
      simp [empty_item_kind, strip_item_kind, strip_empty_module_declaration]
  | .Import use_tree =>
      simp [empty_item_kind, strip_item_kind, strip_empty_use_tree]
  | .Struct noir_struct =>
      simp [empty_item_kind, strip_item_kind, strip_empty_noir_struct]
  | .TypeAlias noir_type_alias =>
      simp [empty_item_kind, strip_item_kind, strip_empty_noir_type_alias]

theorem strip_empty_parsed_submodule (parsed_submodule : ParsedSubModule) :
    strip_parsed_submodule (empty_parsed_submodule parsed_submodule) =
      strip_parsed_submodule parsed_submodule := by
  match parsed_submodule with
  | .mk name contents =>
      simp [empty_parsed_submodule, strip_parsed_submodule, strip_empty_ident,
        strip_empty_parsed_module contents]

end

/-!
Idempotence lemmas: applying `empty_*` twice yields the same tree as applying
it once.
-/

theorem empty_ident_idem (ident : Ident) :
    empty_ident (empty_ident ident) = empty_ident ident := by
  simp [empty_ident]

theorem empty_path_segment_idem (segment : PathSegment) :
    empty_path_segment (empty_path_segment segment) =
      empty_path_segment segment := by
  simp [empty_path_segment, empty_ident_idem]

theorem empty_path_idem (path : Path) :
    empty_path (empty_path path) = empty_path path := by
  simp [empty_path, List.map_map, Function.comp, empty_path_segment_idem]

mutual

theorem empty_pattern_idem (pattern : Pattern) :
    empty_pattern (empty_pattern pattern) = empty_pattern pattern := by
  match pattern with
  | .Identifier ident => simp [empty_pattern, empty_ident_idem]
  | .Mutable pattern span is_synthesized =>
      simp [empty_pattern, empty_pattern_idem pattern]
  | .Tuple patterns span => simp [empty_pattern, empty_patterns_idem patterns]
  | .Struct path fields span =>
      simp [empty_pattern, empty_path_idem, empty_pattern_fields_idem fields]

theorem empty_patterns_idem (patterns : List Pattern) :
    empty_patterns (empty_patterns patterns) = empty_patterns patterns := by
  match patterns with
  | [] => simp [empty_patterns]
  | pattern :: rest =>
      simp [empty_patterns, empty_pattern_idem pattern,
        empty_patterns_idem rest]

theorem empty_pattern_fields_idem (fields : List (Ident × Pattern)) :
    empty_pattern_fields (empty_pattern_fields fields) =
      empty_pattern_fields fields := by
  match fields with
  | [] => simp [empty_pattern_fields]
  | (name, pattern) :: rest =>
      simp [empty_pattern_fields, empty_ident_idem,
        empty_pattern_idem pattern, empty_pattern_fields_idem rest]

end

theorem empty_unresolved_type_expression_idem (e : UnresolvedTypeExpression) :
    empty_unresolved_type_expression (empty_unresolved_type_expression e) =
      empty_unresolved_type_expression e := by
  match e with
  | .Variable path =>
      simp [empty_unresolved_type_expression, empty_path_idem]
  | .BinaryOperation lhs op rhs extra =>
      simp [empty_unresolved_type_expression,
        empty_unresolved_type_expression_idem lhs,
        empty_unresolved_type_expression_idem rhs]
  | .Constant value extra => simp [empty_unresolved_type_expression]

mutual

theorem empty_unresolved_type_idem (typ : UnresolvedType) :
    empty_unresolved_type (empty_unresolved_type typ) =
      empty_unresolved_type typ := by
  match typ with
  | .mk typ span =>
      simp [empty_unresolved_type, empty_unresolved_type_data_idem typ]

theorem empty_unresolved_type_data_idem (data : UnresolvedTypeData) :
    empty_unresolved_type_data (empty_unresolved_type_data data) =
      empty_unresolved_type_data data := by
  match data with
  | .Array size element =>
      simp [empty_unresolved_type_data, empty_unresolved_type_expression_idem,
        empty_unresolved_type_idem element]
  | .Slice element =>
      simp [empty_unresolved_type_data, empty_unresolved_type_idem element]
  | .Expression expr =>
      simp [empty_unresolved_type_data, empty_unresolved_type_expression_idem]
  | .FormatString size element =>
      simp [empty_unresolved_type_data, empty_unresolved_type_expression_idem,
        empty_unresolved_type_idem element]
  | .Parenthesized inner =>
      simp [empty_unresolved_type_data, empty_unresolved_type_idem inner]
  | .Named path generics extra =>
      simp [empty_unresolved_type_data, empty_path_idem,
        empty_unresolved_types_idem generics]
  | .TraitAsType path generics =>
      simp [empty_unresolved_type_data, empty_path_idem,
        empty_unresolved_types_idem generics]
  | .MutableReference inner =>
      simp [empty_unresolved_type_data, empty_unresolved_type_idem inner]
  | .Tuple elements =>
      simp [empty_unresolved_type_data, empty_unresolved_types_idem elements]
  | .Function args ret extra =>
      simp [empty_unresolved_type_data, empty_unresolved_types_idem args,
        empty_unresolved_type_idem ret]
  | .FieldElement => simp [empty_unresolved_type_data]
  | .Integer signed bits => simp [empty_unresolved_type_data]
  | .Bool => simp [empty_unresolved_type_data]
  | .String size => simp [empty_unresolved_type_data]
  | .Unit => simp [empty_unresolved_type_data]
  | .Quoted tag => simp [empty_unresolved_type_data]
  | .Resolved id => simp [empty_unresolved_type_data]
  | .Unspecified => simp [empty_unresolved_type_data]
  | .Error => simp [empty_unresolved_type_data]

theorem empty_unresolved_types_idem (typs : List UnresolvedType) :
    empty_unresolved_types (empty_unresolved_types typs) =
      empty_unresolved_types typs := by
  match typs with
  | [] => simp [empty_unresolved_types]
  | typ :: rest =>
      simp [empty_unresolved_types, empty_unresolved_type_idem typ,
        empty_unresolved_types_idem rest]

end

theorem empty_unresolved_generic_idem (generic : UnresolvedGeneric) :
    empty_unresolved_generic (empty_unresolved_generic generic) =
      empty_unresolved_generic generic := by
  match generic with
  | .Variable ident => simp [empty_unresolved_generic, empty_ident_idem]
  | .Numeric ident typ =>
      simp [empty_unresolved_generic, empty_ident_idem,
        empty_unresolved_type_idem]

theorem empty_unresolved_generics_idem (generics : List UnresolvedGeneric) :
    empty_unresolved_generics (empty_unresolved_generics generics) =
      empty_unresolved_generics generics := by
  simp [empty_unresolved_generics, List.map_map, Function.comp,
    empty_unresolved_generic_idem]

theorem empty_unresolved_trait_constraint_idem
    (c : UnresolvedTraitConstraint) :
    empty_unresolved_trait_constraint (empty_unresolved_trait_constraint c) =
      empty_unresolved_trait_constraint c := by
  simp [empty_unresolved_trait_constraint, empty_unresolved_type_idem]

theorem empty_unresolved_trait_constraints_idem
    (cs : List UnresolvedTraitConstraint) :
    empty_unresolved_trait_constraints (empty_unresolved_trait_constraints cs) =
      empty_unresolved_trait_constraints cs := by
  simp [empty_unresolved_trait_constraints, List.map_map, Function.comp,
    empty_unresolved_trait_constraint_idem]

theorem empty_function_return_type_idem (rt : FunctionReturnType) :
    empty_function_return_type (empty_function_return_type rt) =
      empty_function_return_type rt := by
  match rt with
  | .Ty typ => simp [empty_function_return_type, empty_unresolved_type_idem]
  | .Default extra => simp [empty_function_return_type]

mutual

theorem empty_expression_idem (expression : Expression) :
    empty_expression (empty_expression expression) =
      empty_expression expression := by
  match expression with
  | .mk kind span =>
      simp [empty_expression, empty_expression_kind_idem kind]

theorem empty_expression_kind_idem (kind : ExpressionKind) :
    empty_expression_kind (empty_expression_kind kind) =
      empty_expression_kind kind := by
  match kind with
  | .Literal literal =>
      simp [empty_expression_kind, empty_literal_idem literal]
  | .Block block_expression =>
      simp [empty_expression_kind,
        empty_block_expression_idem block_expression]
  | .Prefix prefix_expression =>
      simp [empty_expression_kind,
        empty_prefix_expression_idem prefix_expression]
  | .Index index_expression =>
      simp [empty_expression_kind, empty_index_expression_idem index_expression]
  | .Call call_expression =>
      simp [empty_expression_kind, empty_call_expression_idem call_expression]
  | .MethodCall method_call_expression =>
      simp [empty_expression_kind,
        empty_method_call_expression_idem method_call_expression]
  | .Constructor constructor_expression =>
      simp [empty_expression_kind,
        empty_constructor_expression_idem constructor_expression]
  | .MemberAccess member_access_expression =>
      simp [empty_expression_kind,
        empty_member_access_expression_idem member_access_expression]
  | .Cast cast_expression =>
      simp [empty_expression_kind, empty_cast_expression_idem cast_expression]
  | .Infix infix_expression =>
      simp [empty_expression_kind,
        empty_infix_expression_idem infix_expression]
  | .If if_expression =>
      simp [empty_expression_kind, empty_if_expression_idem if_expression]
  | .Variable path => simp [empty_expression_kind, empty_path_idem]
  | .Tuple expressions =>
      simp [empty_expression_kind, empty_expressions_idem expressions]
  | .Lambda lambda => simp [empty_expression_kind, empty_lambda_idem lambda]
  | .Parenthesized expression =>
      simp [empty_expression_kind, empty_expression_idem expression]
  | .Unquote expression =>
      simp [empty_expression_kind, empty_expression_idem expression]
  | .Comptime block_expression span =>
      simp [empty_expression_kind,
        empty_block_expression_idem block_expression]
  | .Quote tokens => simp [empty_expression_kind]
  | .Resolved id => simp [empty_expression_kind]
  | .Error => simp [empty_expression_kind]

theorem empty_expressions_idem (expressions : List Expression) :
    empty_expressions (empty_expressions expressions) =
      empty_expressions expressions := by
  match expressions with
  | [] => simp [empty_expressions]
  | expression :: rest =>
      simp [empty_expressions, empty_expression_idem expression,
        empty_expressions_idem rest]

theorem empty_option_expression_idem (o : Option Expression) :
    empty_option_expression (empty_option_expression o) =
      empty_option_expression o := by
  match o with
  | none => simp [empty_option_expression]
  | some expression =>
      simp [empty_option_expression, empty_expression_idem expression]

theorem empty_literal_idem (literal : Literal) :
    empty_literal (empty_literal literal) = empty_literal literal := by
  match literal with
  | .Array array_literal =>
      simp [empty_literal, empty_array_literal_idem array_literal]
  | .Slice array_literal =>
      simp [empty_literal, empty_array_literal_idem array_literal]
  | .Bool value => simp [empty_literal]
  | .Integer value negative => simp [empty_literal]
  | .Str value => simp [empty_literal]
  | .RawStr value hashes => simp [empty_literal]
  | .FmtStr value => simp [empty_literal]
  | .Unit => simp [empty_literal]

theorem empty_array_literal_idem (array_literal : ArrayLiteral) :
    empty_array_literal (empty_array_literal array_literal) =
      empty_array_literal array_literal := by
  match array_literal with
  | .Standard expressions =>
      simp [empty_array_literal, empty_expressions_idem expressions]
  | .Repeated repeated_element length =>
      simp [empty_array_literal, empty_expression_idem repeated_element,
        empty_expression_idem length]

theorem empty_block_expression_idem (block_expression : BlockExpression) :
    empty_block_expression (empty_block_expression block_expression) =
      empty_block_expression block_expression := by
  match block_expression with
  | .mk statements =>
      simp [empty_block_expression, empty_statements_idem statements]

theorem empty_statements_idem (statements : List Statement) :
    empty_statements (empty_statements statements) =
      empty_statements statements := by
  match statements with
  | [] => simp [empty_statements]
  | statement :: rest =>
      simp [empty_statements, empty_statement_idem statement,
        empty_statements_idem rest]

theorem empty_statement_idem (statement : Statement) :
    empty_statement (empty_statement statement) =
      empty_statement statement := by
  match statement with
  | .mk kind span =>
      simp [empty_statement, empty_statement_kind_idem kind]

theorem empty_statement_kind_idem (kind : StatementKind) :
    empty_statement_kind (empty_statement_kind kind) =
      empty_statement_kind kind := by
  match kind with
  | .Let let_statement =>
      simp [empty_statement_kind, empty_let_statement_idem let_statement]
  | .Constrain constrain_statement =>
      simp [empty_statement_kind,
        empty_constrain_statement_idem constrain_statement]
  | .Expression expression =>
      simp [empty_statement_kind, empty_expression_idem expression]
  | .Assign assign_statement =>
      simp [empty_statement_kind,
        empty_assign_statement_idem assign_statement]
  | .For for_loop_statement =>
      simp [empty_statement_kind,
        empty_for_loop_statement_idem for_loop_statement]
  | .Comptime statement =>
      simp [empty_statement_kind, empty_statement_idem statement]
  | .Semi expression =>
      simp [empty_statement_kind, empty_expression_idem expression]
  | .Break => simp [empty_statement_kind]
  | .Continue => simp [empty_statement_kind]
  | .Error => simp [empty_statement_kind]

theorem empty_let_statement_idem (let_statement : LetStatement) :
    empty_let_statement (empty_let_statement let_statement) =
      empty_let_statement let_statement := by
  match let_statement with
  | .mk pattern typ expression =>
      simp [empty_let_statement, empty_pattern_idem,
        empty_unresolved_type_idem, empty_expression_idem expression]

theorem empty_constrain_statement_idem
    (constrain_statement : ConstrainStatement) :
    empty_constrain_statement (empty_constrain_statement constrain_statement) =
      empty_constrain_statement constrain_statement := by
  match constrain_statement with
  | .mk expression message =>
      simp [empty_constrain_statement, empty_expression_idem expression,
        empty_option_expression_idem message]

theorem empty_assign_statement_idem (assign_statement : AssignStatement) :
    empty_assign_statement (empty_assign_statement assign_statement) =
      empty_assign_statement assign_statement := by
  match assign_statement with
  | .mk lvalue expression =>
      simp [empty_assign_statement, empty_lvalue_idem lvalue,
        empty_expression_idem expression]

theorem empty_lvalue_idem (lvalue : LValue) :
    empty_lvalue (empty_lvalue lvalue) = empty_lvalue lvalue := by
  match lvalue with
  | .Ident ident => simp [empty_lvalue, empty_ident_idem]
  | .MemberAccess object field_name span =>
      simp [empty_lvalue, empty_ident_idem, empty_lvalue_idem object]
  | .Index array index span =>
      simp [empty_lvalue, empty_lvalue_idem array,
        empty_expression_idem index]
  | .Dereference lvalue span =>
      simp [empty_lvalue, empty_lvalue_idem lvalue]

theorem empty_for_loop_statement_idem
    (for_loop_statement : ForLoopStatement) :
    empty_for_loop_statement (empty_for_loop_statement for_loop_statement) =
      empty_for_loop_statement for_loop_statement := by
  match for_loop_statement with
  | .mk identifier range block span =>
      simp [empty_for_loop_statement, empty_ident_idem,
        empty_for_range_idem range, empty_expression_idem block]

theorem empty_for_range_idem (range : ForRange) :
    empty_for_range (empty_for_range range) = empty_for_range range := by
  match range with
  | .Range from_expression to_expression =>
      simp [empty_for_range, empty_expression_idem from_expression,
        empty_expression_idem to_expression]
  | .Array expression =>
      simp [empty_for_range, empty_expression_idem expression]

theorem empty_prefix_expression_idem (prefix_expression : PrefixExpression) :
    empty_prefix_expression (empty_prefix_expression prefix_expression) =
      empty_prefix_expression prefix_expression := by
  match prefix_expression with
  | .mk op rhs => simp [empty_prefix_expression, empty_expression_idem rhs]

theorem empty_index_expression_idem (index_expression : IndexExpression) :
    empty_index_expression (empty_index_expression index_expression) =
      empty_index_expression index_expression := by
  match index_expression with
  | .mk collection index =>
      simp [empty_index_expression, empty_expression_idem collection,
        empty_expression_idem index]

theorem empty_call_expression_idem (call_expression : CallExpression) :
    empty_call_expression (empty_call_expression call_expression) =
      empty_call_expression call_expression := by
  match call_expression with
  | .mk func arguments =>
      simp [empty_call_expression, empty_expression_idem func,
        empty_expressions_idem arguments]

theorem empty_method_call_expression_idem
    (method_call_expression : MethodCallExpression) :
    empty_method_call_expression
        (empty_method_call_expression method_call_expression) =
      empty_method_call_expression method_call_expression := by
  match method_call_expression with
  | .mk object method_name none arguments =>
      simp [empty_method_call_expression, empty_expression_idem object,
        empty_ident_idem, empty_expressions_idem arguments]
  | .mk object method_name (some generics) arguments =>
      simp [empty_method_call_expression, empty_expression_idem object,
        empty_ident_idem, empty_unresolved_types_idem generics,
        empty_expressions_idem arguments]

theorem empty_constructor_expression_idem
    (constructor_expression : ConstructorExpression) :
    empty_constructor_expression
        (empty_constructor_expression constructor_expression) =
      empty_constructor_expression constructor_expression := by
  match constructor_expression with
  | .mk type_name fields =>
      simp [empty_constructor_expression, empty_path_idem,
        empty_constructor_fields_idem fields]

theorem empty_constructor_fields_idem (fields : List (Ident × Expression)) :
    empty_constructor_fields (empty_constructor_fields fields) =
      empty_constructor_fields fields := by
  match fields with
  | [] => simp [empty_constructor_fields]
  | (name, expression) :: rest =>
      simp [empty_constructor_fields, empty_ident_idem,
        empty_expression_idem expression, empty_constructor_fields_idem rest]

theorem empty_member_access_expression_idem
    (member_access_expression : MemberAccessExpression) :
    empty_member_access_expression
        (empty_member_access_expression member_access_expression) =
      empty_member_access_expression member_access_expression := by
  match member_access_expression with
  | .mk lhs rhs =>
      simp [empty_member_access_expression, empty_expression_idem lhs,
        empty_ident_idem]

theorem empty_cast_expression_idem (cast_expression : CastExpression) :
    empty_cast_expression (empty_cast_expression cast_expression) =
      empty_cast_expression cast_expression := by
  match cast_expression with
  | .mk lhs typ =>
      simp [empty_cast_expression, empty_expression_idem lhs,
        empty_unresolved_type_idem]

theorem empty_infix_expression_idem (infix_expression : InfixExpression) :
    empty_infix_expression (empty_infix_expression infix_expression) =
      empty_infix_expression infix_expression := by
  match infix_expression with
  | .mk lhs op rhs =>
      simp [empty_infix_expression, empty_expression_idem lhs,
        empty_expression_idem rhs]

theorem empty_if_expression_idem (if_expression : IfExpression) :
    empty_if_expression (empty_if_expression if_expression) =
      empty_if_expression if_expression := by
  match if_expression with
  | .mk condition consequence alternative =>
      simp [empty_if_expression, empty_expression_idem condition,
        empty_expression_idem consequence,
        empty_option_expression_idem alternative]

theorem empty_lambda_idem (lambda : Lambda) :
    empty_lambda (empty_lambda lambda) = empty_lambda lambda := by
  match lambda with
  | .mk parameters return_type body =>
      simp [empty_lambda, empty_lambda_parameters_idem parameters,
        empty_unresolved_type_idem, empty_expression_idem body]

theorem empty_lambda_parameters_idem
    (parameters : List (Pattern × UnresolvedType)) :
    empty_lambda_parameters (empty_lambda_parameters parameters) =
      empty_lambda_parameters parameters := by
  match parameters with
  | [] => simp [empty_lambda_parameters]
  | (name, typ) :: rest =>
      simp [empty_lambda_parameters, empty_pattern_idem,
        empty_unresolved_type_idem, empty_lambda_parameters_idem rest]

end

theorem empty_noir_function_idem (noir_function : NoirFunction) :
    empty_noir_function (empty_noir_function noir_function) =
      empty_noir_function noir_function := by
  simp [empty_noir_function, List.map_map, Function.comp, empty_ident_idem,
    empty_unresolved_generics_idem, empty_unresolved_trait_constraints_idem,
    empty_function_return_type_idem, empty_block_expression_idem,
    empty_pattern_idem, empty_unresolved_type_idem]

theorem empty_trait_item_idem (trait_item : TraitItem) :
    empty_trait_item (empty_trait_item trait_item) =
      empty_trait_item trait_item := by
  match trait_item with
  | .Function name generics parameters return_type where_clause body =>
      cases body with
      | none =>
          simp [empty_trait_item, empty_ident_idem,
            empty_unresolved_generics_idem, empty_unresolved_generics,
            List.map_map, Function.comp, empty_unresolved_generic_idem,
            empty_unresolved_type_idem, empty_function_return_type_idem,
            empty_unresolved_trait_constraint_idem]
      | some body =>
          simp [empty_trait_item, empty_ident_idem,
            empty_unresolved_generics_idem, empty_unresolved_generics,
            List.map_map, Function.comp, empty_unresolved_generic_idem,
            empty_unresolved_type_idem, empty_function_return_type_idem,
            empty_unresolved_trait_constraint_idem,
            empty_block_expression_idem]
  | .Constant name typ default_value =>
      simp [empty_trait_item, empty_ident_idem, empty_unresolved_type_idem,
        empty_option_expression_idem]
  | .«Type» name => simp [empty_trait_item, empty_ident_idem]

theorem empty_trait_impl_item_idem (trait_impl_item : TraitImplItem) :
    empty_trait_impl_item (empty_trait_impl_item trait_impl_item) =
      empty_trait_impl_item trait_impl_item := by
  match trait_impl_item with
  | .Function noir_function =>
      simp [empty_trait_impl_item, empty_noir_function_idem]
  | .Constant name typ default_value =>
      simp [empty_trait_impl_item, empty_ident_idem,
        empty_unresolved_type_idem, empty_expression_idem]
  | .«Type» name alias_typ =>
      simp [empty_trait_impl_item, empty_ident_idem,
        empty_unresolved_type_idem]

theorem empty_noir_trait_idem (noir_trait : NoirTrait) :
    empty_noir_trait (empty_noir_trait noir_trait) =
      empty_noir_trait noir_trait := by
  simp [empty_noir_trait, empty_ident_idem, empty_unresolved_generics_idem,
    empty_unresolved_trait_constraints_idem, List.map_map, Function.comp,
    empty_trait_item_idem]

theorem empty_noir_trait_impl_idem (noir_trait_impl : NoirTraitImpl) :
    empty_noir_trait_impl (empty_noir_trait_impl noir_trait_impl) =
      empty_noir_trait_impl noir_trait_impl := by
  simp [empty_noir_trait_impl, empty_path_idem,
    empty_unresolved_generics_idem, empty_unresolved_type_idem,
    empty_unresolved_trait_constraints_idem, List.map_map, Function.comp,
    empty_trait_impl_item_idem]

theorem empty_type_impl_idem (type_impl : TypeImpl) :
    empty_type_impl (empty_type_impl type_impl) = empty_type_impl type_impl := by
  simp [empty_type_impl, empty_unresolved_type_idem,
    empty_unresolved_generics_idem, empty_unresolved_trait_constraints_idem,
    List.map_map, Function.comp, empty_noir_function_idem]

theorem empty_noir_struct_idem (noir_struct : NoirStruct) :
    empty_noir_struct (empty_noir_struct noir_struct) =
      empty_noir_struct noir_struct := by
  simp [empty_noir_struct, empty_ident_idem, List.map_map, Function.comp,
    empty_unresolved_type_idem, empty_unresolved_generics_idem]

theorem empty_noir_type_alias_idem (noir_type_alias : NoirTypeAlias) :
    empty_noir_type_alias (empty_noir_type_alias noir_type_alias) =
      empty_noir_type_alias noir_type_alias := by
  simp [empty_noir_type_alias, empty_ident_idem, empty_unresolved_type_idem]

theorem empty_module_declaration_idem
    (module_declaration : ModuleDeclaration) :
    empty_module_declaration (empty_module_declaration module_declaration) =
      empty_module_declaration module_declaration := by
  simp [empty_module_declaration, empty_ident_idem]

mutual

theorem empty_use_tree_idem (use_tree : UseTree) :
    empty_use_tree (empty_use_tree use_tree) = empty_use_tree use_tree := by
  match use_tree with
  | .mk prefix_path kind =>
      simp [empty_use_tree, empty_path_idem, empty_use_tree_kind_idem kind]

theorem empty_use_tree_kind_idem (kind : UseTreeKind) :
    empty_use_tree_kind (empty_use_tree_kind kind) =
      empty_use_tree_kind kind := by
  match kind with
  | .Path name none => simp [empty_use_tree_kind, empty_ident_idem]
  | .Path name (some alias_name) =>
      simp [empty_use_tree_kind, empty_ident_idem]
  | .List use_trees =>
      simp [empty_use_tree_kind, empty_use_trees_idem use_trees]

theorem empty_use_trees_idem (use_trees : List UseTree) :
    empty_use_trees (empty_use_trees use_trees) =
      empty_use_trees use_trees := by
  match use_trees with
  | [] => simp [empty_use_trees]
  | use_tree :: rest =>
      simp [empty_use_trees, empty_use_tree_idem use_tree,
        empty_use_trees_idem rest]

end

mutual

theorem empty_parsed_module_idem (parsed_module : ParsedModule) :
    empty_parsed_module (empty_parsed_module parsed_module) =
      empty_parsed_module parsed_module := by
  match parsed_module with
  | .mk items => simp [empty_parsed_module, empty_items_idem items]

theorem empty_items_idem (items : List Item) :
    empty_items (empty_items items) = empty_items items := by
  match items with
  | [] => simp [empty_items]
  | item :: rest =>
      simp [empty_items, empty_item_idem item, empty_items_idem rest]

theorem empty_item_idem (item : Item) :
    empty_item (empty_item item) = empty_item item := by
  match item with
  | .mk kind span => simp [empty_item, empty_item_kind_idem kind]

theorem empty_item_kind_idem (kind : ItemKind) :
    empty_item_kind (empty_item_kind kind) = empty_item_kind kind := by
  match kind with
  | .Function noir_function =>
      simp [empty_item_kind, empty_noir_function_idem]
  | .Trait noir_trait => simp [empty_item_kind, empty_noir_trait_idem]
  | .TraitImpl noir_trait_impl =>
      simp [empty_item_kind, empty_noir_trait_impl_idem]
  | .Impl type_impl => simp [empty_item_kind, empty_type_impl_idem]
  | .Global let_statement =>
      simp [empty_item_kind, empty_let_statement_idem]
  | .Submodules parsed_submodule =>
      simp [empty_item_kind, empty_parsed_submodule_idem parsed_submodule]
  | .ModuleDecl module_declaration =>
      simp [empty_item_kind, empty_module_declaration_idem]
  | .Import use_tree => simp [empty_item_kind, empty_use_tree_idem]
  | .Struct noir_struct => simp [empty_item_kind, empty_noir_struct_idem]
  | .TypeAlias noir_type_alias =>
      simp [empty_item_kind, empty_noir_type_alias_idem]

theorem empty_parsed_submodule_idem (parsed_submodule : ParsedSubModule) :
    empty_parsed_submodule (empty_parsed_submodule parsed_submodule) =
      empty_parsed_submodule parsed_submodule := by
  match parsed_submodule with
  | .mk name contents =>
      simp [empty_parsed_submodule, empty_ident_idem,
        empty_parsed_module_idem contents]

end

/-- C1: for every input tree, after sanitization every node that carries a
location attribute has that attribute equal to the empty sentinel (the default
span value), and nodes of terminal/no-location variants (scalar literals,
`Break`/`Continue`/`Error` statements, `Quote`/`Resolved`/`Error` expressions,
primitive/terminal type forms) have no attribute altered. -/
theorem location_erasure_completeness :
    (∀ parsed_module : ParsedModule,
      spans_empty_parsed_module (empty_parsed_module parsed_module) = true) ∧
    (∀ value : Bool, empty_literal (.Bool value) = .Bool value) ∧
    (∀ value negative, empty_literal (.Integer value negative) =
      .Integer value negative) ∧
    (∀ value : String, empty_literal (.Str value) = .Str value) ∧
    (∀ value hashes, empty_literal (.RawStr value hashes) =
      .RawStr value hashes) ∧
    (∀ value : String, empty_literal (.FmtStr value) = .FmtStr value) ∧
    (empty_literal .Unit = .Unit) ∧
    (empty_statement_kind .Break = .Break) ∧
    (empty_statement_kind .Continue = .Continue) ∧
    (empty_statement_kind .Error = .Error) ∧
    (∀ tokens, empty_expression_kind (.Quote tokens) = .Quote tokens) ∧
    (∀ id, empty_expression_kind (.Resolved id) = .Resolved id) ∧
    (empty_expression_kind .Error = .Error) ∧
    (empty_unresolved_type_data .FieldElement = .FieldElement) ∧
    (∀ signed bits, empty_unresolved_type_data (.Integer signed bits) =
      .Integer signed bits) ∧
    (empty_unresolved_type_data .Bool = .Bool) ∧
    (∀ size, empty_unresolved_type_data (.String size) = .String size) ∧
    (empty_unresolved_type_data .Unit = .Unit) ∧
    (∀ tag, empty_unresolved_type_data (.Quoted tag) = .Quoted tag) ∧
    (∀ id, empty_unresolved_type_data (.Resolved id) = .Resolved id) ∧
    (empty_unresolved_type_data .Unspecified = .Unspecified) ∧
    (empty_unresolved_type_data .Error = .Error) := by
  refine ⟨empty_parsed_module_spans_empty, ?_, ?_, ?_, ?_, ?_, ?_, ?_, ?_,
    ?_, ?_, ?_, ?_, ?_, ?_, ?_, ?_, ?_, ?_, ?_, ?_, ?_⟩ <;>
    simp [empty_literal, empty_statement_kind, empty_expression_kind,
      empty_unresolved_type_data]

/-- C2: for every input tree, sanitization changes only location attributes —
the sanitized tree and the original tree have the same positional-erasure
image, so every node's tag, child count, child order, identifier text, literal
values and operator/variant kinds are identical, and no node is added, removed
or reordered. -/
theorem structural_preservation (parsed_module : ParsedModule) :
    strip_parsed_module (empty_parsed_module parsed_module) =
      strip_parsed_module parsed_module :=
  strip_empty_parsed_module parsed_module

/-- C3: for every input tree, applying sanitization twice yields the same tree
as applying it once. -/
theorem sanitization_idempotent (parsed_module : ParsedModule) :
    empty_parsed_module (empty_parsed_module parsed_module) =
      empty_parsed_module parsed_module :=
  empty_parsed_module_idem parsed_module

/-- C4: for every source text and flag value, `parse_program` returns the pair
(tree, parse errors) produced by the external parser, where the tree is passed
through the sanitizer exactly when the flag is true, and is returned exactly
as parsed when the flag is false. -/
theorem parse_program_facade_contract
    (noirc_parse : String → ParsedModule × List ParserError)
    (source_program : String) (empty_spans : Bool) :
    parse_program noirc_parse source_program empty_spans =
      ((if empty_spans then
          empty_parsed_module (noirc_parse source_program).1
        else (noirc_parse source_program).1),
       (noirc_parse source_program).2) := by
  cases empty_spans <;> simp [parse_program]

/-- C5: for every source text and flag value, the parse-error list returned by
`parse_program` is exactly the list produced by the parser, and the returned
tree is a function of the parsed tree alone — sanitization proceeds on
whatever tree the parser produced and never consults the error list. -/
theorem parse_errors_passed_through
    (noirc_parse : String → ParsedModule × List ParserError)
    (source_program : String) (empty_spans : Bool) :
    (parse_program noirc_parse source_program empty_spans).2 =
      (noirc_parse source_program).2 ∧
    (parse_program noirc_parse source_program empty_spans).1 =
      (if empty_spans then empty_parsed_module (noirc_parse source_program).1
       else (noirc_parse source_program).1) := by
  cases empty_spans <;> simp [parse_program]

/-- C6: sanitization is a total function over every tree value — it produces a
result for every input and has no failure branch — and the `Error`-tagged
statement, expression and type variants are terminal inputs whose payload-free
data is returned unchanged (their enclosing node's own span is still
cleared). -/
theorem sanitizer_totality_and_error_terminality :
    (∀ parsed_module : ParsedModule,
      ∃ result, empty_parsed_module parsed_module = result) ∧
    (∀ span, empty_statement (.mk .Error span) = .mk .Error default_span) ∧
    (∀ span, empty_expression (.mk .Error span) = .mk .Error default_span) ∧
    (∀ span, empty_unresolved_type (.mk .Error span) =
      .mk .Error default_span) := by
  refine ⟨fun parsed_module => ⟨_, rfl⟩, ?_, ?_, ?_⟩ <;>
    simp [empty_statement, empty_statement_kind, empty_expression,
      empty_expression_kind, empty_unresolved_type,
      empty_unresolved_type_data]

/-- C7: for every `ForLoop` statement, sanitization clears the loop
statement's own location attribute, normalizes the loop-variable identifier,
the iteration range (both expressions of the range form, or the single
expression of the array form), and the body expression. -/
theorem for_loop_normalization :
    (∀ for_loop_statement, empty_statement_kind (.For for_loop_statement) =
      .For (empty_for_loop_statement for_loop_statement)) ∧
    (∀ identifier range block span,
      empty_for_loop_statement (.mk identifier range block span) =
        .mk (empty_ident identifier) (empty_for_range range)
          (empty_expression block) default_span) ∧
    (∀ from_expression to_expression,
      empty_for_range (.Range from_expression to_expression) =
        .Range (empty_expression from_expression)
          (empty_expression to_expression)) ∧
    (∀ expression, empty_for_range (.Array expression) =
      .Array (empty_expression expression)) := by
  refine ⟨fun for_loop_statement => ?_, fun identifier range block span => ?_,
    fun from_expression to_expression => ?_, fun expression => ?_⟩ <;>
    simp [empty_statement_kind, empty_for_loop_statement, empty_for_range]

/-- C8: for every trait implementation containing an associated-constant
member with a default-value expression, sanitization maps every member through
`empty_trait_impl_item`, which rewrites the constant to its normalized name,
type and default value; each of those carries only empty locations
afterwards. -/
theorem trait_impl_constant_normalization :
    (∀ noir_trait_impl : NoirTraitImpl,
      (empty_noir_trait_impl noir_trait_impl).items =
        noir_trait_impl.items.map empty_trait_impl_item) ∧
    (∀ name typ default_value,
      empty_trait_impl_item (.Constant name typ default_value) =
        .Constant (empty_ident name) (empty_unresolved_type typ)
          (empty_expression default_value)) ∧
    (∀ name : Ident, spans_empty_ident (empty_ident name) = true) ∧
    (∀ typ : UnresolvedType,
      spans_empty_unresolved_type (empty_unresolved_type typ) = true) ∧
    (∀ default_value : Expression,
      spans_empty_expression (empty_expression default_value) = true) := by
  refine ⟨fun noir_trait_impl => ?_, fun name typ default_value => ?_,
    empty_ident_spans_empty, empty_unresolved_type_spans_empty,
    empty_expression_spans_empty⟩
  · simp [empty_noir_trait_impl]
  · simp [empty_trait_impl_item]

/-- C9: for every `MethodCall` expression, sanitization normalizes the
receiver expression, the method-name identifier, every explicit generic type
argument when the generic argument list is present, and every argument
expression. -/
theorem method_call_normalization :
    (∀ method_call_expression,
      empty_expression_kind (.MethodCall method_call_expression) =
        .MethodCall (empty_method_call_expression method_call_expression)) ∧
    (∀ object method_name generics arguments,
      empty_method_call_expression
          (.mk object method_name (some generics) arguments) =
        .mk (empty_expression object) (empty_ident method_name)
          (some (empty_unresolved_types generics))
          (empty_expressions arguments)) ∧
    (∀ object method_name arguments,
      empty_method_call_expression (.mk object method_name none arguments) =
        .mk (empty_expression object) (empty_ident method_name) none
          (empty_expressions arguments)) ∧
    (∀ expressions : List Expression,
      empty_expressions expressions = expressions.map empty_expression) ∧
    (∀ typs : List UnresolvedType,
      empty_unresolved_types typs = typs.map empty_unresolved_type) := by
  refine ⟨fun method_call_expression => ?_,
    fun object method_name generics arguments => ?_,
    fun object method_name arguments => ?_, fun expressions => ?_,
    fun typs => ?_⟩
  · simp [empty_expression_kind]
  · simp [empty_method_call_expression]
  · simp [empty_method_call_expression]
  · induction expressions with
    | nil => simp [empty_expressions]
    | cons expression rest ih => simp [empty_expressions, ih]
  · induction typs with
    | nil => simp [empty_unresolved_types]
    | cons typ rest ih => simp [empty_unresolved_types, ih]

/-- C10: sanitization leaves unchanged the auxiliary span fields stored inside
the `Mutable`, `Tuple` and `Struct` pattern variants, the `MemberAccess`,
`Index` and `Dereference` lvalue variants, and the `Comptime` expression
variant — in each, only the nested identifiers, paths, patterns and
expressions are normalized, never the variant's own span. -/
theorem auxiliary_spans_preserved :
    (∀ pattern span is_synthesized,
      empty_pattern (.Mutable pattern span is_synthesized) =
        .Mutable (empty_pattern pattern) span is_synthesized) ∧
    (∀ patterns span, empty_pattern (.Tuple patterns span) =
      .Tuple (empty_patterns patterns) span) ∧
    (∀ path fields span, empty_pattern (.Struct path fields span) =
      .Struct (empty_path path) (empty_pattern_fields fields) span) ∧
    (∀ object field_name span,
      empty_lvalue (.MemberAccess object field_name span) =
        .MemberAccess (empty_lvalue object) (empty_ident field_name) span) ∧
    (∀ array index span, empty_lvalue (.Index array index span) =
      .Index (empty_lvalue array) (empty_expression index) span) ∧
    (∀ lvalue span, empty_lvalue (.Dereference lvalue span) =
      .Dereference (empty_lvalue lvalue) span) ∧
    (∀ block_expression span,
      empty_expression_kind (.Comptime block_expression span) =
        .Comptime (empty_block_expression block_expression) span) := by
  refine ⟨fun pattern span is_synthesized => ?_, fun patterns span => ?_,
    fun path fields span => ?_, fun object field_name span => ?_,
    fun array index span => ?_, fun lvalue span => ?_,
    fun block_expression span => ?_⟩ <;>
    simp [empty_pattern, empty_lvalue, empty_expression_kind]

end Noir
